import Mathlib

/-!
Verification of `scripts/generate_icons.py`.

The file embeds the two algorithmic components of the script:

* the ICNS packager `create_icns`, which serializes PNG payloads for the
  six required pixel sizes into the binary ICNS container, and
* the procedural composer `draw_ball_python_j` together with the polygon
  approximation `draw_rotated_ellipse`.

Bytes are modelled as natural numbers, the Python big-endian
`struct.pack` as an explicit base-256 digit computation that fails (as
`struct.pack` does) when the value does not fit in 32 bits, and image
coordinates as real numbers.  The PIL library is not part of the
repository; the points where the script calls into it (PNG encoding,
resizing, and shape rasterization) are modelled from the spec, as
documented on the corresponding definitions.
-/

namespace Julius

/-! ## ICNS packager -/

/-- Big-endian 4-byte encoding of a natural number (the digits of
`struct.pack`). -/
def beBytes (n : ℕ) : List ℕ :=
  [n / 16777216 % 256, n / 65536 % 256, n / 256 % 256, n % 256]

/-- `struct.pack` with format `>I`: succeeds only for values below `2 ^ 32`,
mirroring the `struct.error` raised otherwise. -/
def beU32 (n : ℕ) : Option (List ℕ) :=
  if n < 4294967296 then some (beBytes n) else none

/-- Read a big-endian 32-bit integer from the head of a byte list. -/
def readBE32 : List ℕ → Option ℕ
  | b0 :: b1 :: b2 :: b3 :: _ => some (((b0 * 256 + b1) * 256 + b2) * 256 + b3)
  | _ => none

/-- The fixed (type code, pixel size) table of `create_icns`:
`icp4/icp5/icp6/ic07/ic08/ic09` for 16/32/64/128/256/512 pixels.  The type
codes are spelled as their ASCII bytes. -/
def iconTypes : List (List ℕ × ℕ) :=
  [([105, 99, 112, 52], 16),
   ([105, 99, 112, 53], 32),
   ([105, 99, 112, 54], 64),
   ([105, 99, 48, 55], 128),
   ([105, 99, 48, 56], 256),
   ([105, 99, 48, 57], 512)]

/-- The bytes of one ICNS entry: type code, big-endian length counting the
8-byte entry header, then the PNG payload.  `encode sz` stands for the PNG
bytes of the master image resized to `sz`×`sz`; resizing and PNG encoding
happen inside PIL, outside this repository. -/
def entryBytes (encode : ℕ → List ℕ) (ti : List ℕ × ℕ) : List ℕ :=
  ti.1 ++ beBytes (8 + (encode ti.2).length) ++ encode ti.2

/-- One iteration of the entry-building loop of `create_icns`, including the
possible `struct.error`. -/
def entryOpt (encode : ℕ → List ℕ) (ti : List ℕ × ℕ) : Option (List ℕ) :=
  (beU32 (8 + (encode ti.2).length)).map fun lb => ti.1 ++ lb ++ encode ti.2

/-- The entry-building loop of `create_icns` over a list of
(type code, size) pairs. -/
def buildEntries (encode : ℕ → List ℕ) : List (List ℕ × ℕ) → Option (List (List ℕ))
  | [] => some []
  | ti :: rest => do
      let e ← entryOpt encode ti
      let es ← buildEntries encode rest
      some (e :: es)

/-- The ICNS serializer of the script.  Modelled from the spec where the
script leaves the repository: the master image together with PIL's
`resize` and PNG encoder are abstracted into `encode`, so that `encode sz`
is the PNG payload produced for pixel size `sz`.  Output is the byte list
the script writes: the ASCII magic `icns`, the big-endian total length,
then the concatenated entries. -/
def create_icns (encode : ℕ → List ℕ) : Option (List ℕ) := do
  let entries ← buildEntries encode iconTypes
  let body := entries.flatten
  let lb ← beU32 (8 + body.length)
  some ([105, 99, 110, 115] ++ lb ++ body)

/-- Fuel-driven decoder for the entry section of an ICNS file: repeatedly
reads a 4-byte type code and a 4-byte big-endian entry length (which counts
the 8-byte entry header), and returns the list of (type code, payload)
pairs.  The fuel only serves termination; `parseEntries` supplies enough. -/
def parseEntriesF : ℕ → List ℕ → Option (List (List ℕ × List ℕ))
  | _, [] => some []
  | 0, _ :: _ => none
  | fuel + 1, b :: bs =>
      match readBE32 ((b :: bs).drop 4) with
      | none => none
      | some len =>
          if 8 ≤ len ∧ len ≤ (b :: bs).length then
            match parseEntriesF fuel ((b :: bs).drop len) with
            | none => none
            | some rest => some (((b :: bs).take 4, ((b :: bs).take len).drop 8) :: rest)
          else none

/-- Decode the entry section of an ICNS file. -/
def parseEntries (bs : List ℕ) : Option (List (List ℕ × List ℕ)) :=
  parseEntriesF bs.length bs

/-- A trivial stand-in encoder (every payload empty), used to instantiate
the packager theorems on a concrete input. -/
def enc0 : ℕ → List ℕ := fun _ => []

/-- The concrete ICNS bytes produced for the `enc0` encoder. -/
def out0 : List ℕ :=
  [105, 99, 110, 115, 0, 0, 0, 56,
   105, 99, 112, 52, 0, 0, 0, 8,
   105, 99, 112, 53, 0, 0, 0, 8,
   105, 99, 112, 54, 0, 0, 0, 8,
   105, 99, 48, 55, 0, 0, 0, 8,
   105, 99, 48, 56, 0, 0, 0, 8,
   105, 99, 48, 57, 0, 0, 0, 8]

/-! ## Image composer -/

open Real in
/-- Scale factor `s = size / 64` from the script's 64×64 design space. -/
noncomputable def sFactor (size : ℕ) : ℝ := size / 64

/-- The background inset `pad = int(4 * s)`; Python's `int` truncates, which
is the floor for these nonnegative values. -/
noncomputable def padI (size : ℕ) : ℤ := ⌊4 * sFactor size⌋

/-- The rounded-rectangle corner radius `int(12 * s)`. -/
noncomputable def radI (size : ℕ) : ℤ := ⌊12 * sFactor size⌋

/-- The body stroke half-width `body_width = int(5 * s)`. -/
noncomputable def body_width (size : ℕ) : ℤ := ⌊5 * sFactor size⌋

/-- An RGBA ink.  `ImageDraw` on an RGBA image copies the ink (with its
alpha) into covered pixels; an RGB ink is completed with alpha 255. -/
structure Ink where
  r : ℕ
  g : ℕ
  b : ℕ
  a : ℕ
deriving DecidableEq

/-- The drawing primitives the script invokes: `rounded_rectangle` with a
bounding box and corner radius, `ellipse` with a bounding box, `polygon`
with a vertex list, and `line` between two points with a stroke width. -/
inductive Shape where
  | rrect (x0 y0 x1 y1 rad : ℝ)
  | ell (x0 y0 x1 y1 : ℝ)
  | poly (pts : List (ℝ × ℝ))
  | seg (x0 y0 x1 y1 w : ℝ)

/-- The edges of a closed polygon: consecutive vertices plus the closing
edge back to the first vertex. -/
def polyEdges (pts : List (ℝ × ℝ)) : List ((ℝ × ℝ) × (ℝ × ℝ)) :=
  pts.zip (pts.tail ++ pts.take 1)

/-- An edge crosses the horizontal ray going right from `q`: the edge spans
the ray's height (half-open, so shared vertices are counted once) and the
intersection lies strictly right of `q`. -/
def crosses (e : (ℝ × ℝ) × (ℝ × ℝ)) (q : ℝ × ℝ) : Prop :=
  ((e.1.2 ≤ q.2 ∧ q.2 < e.2.2) ∨ (e.2.2 ≤ q.2 ∧ q.2 < e.1.2)) ∧
    q.1 < e.1.1 + (q.2 - e.1.2) * (e.2.1 - e.1.1) / (e.2.2 - e.1.2)

open Classical in
/-- Number of polygon edges crossed by the rightward ray from `q`. -/
noncomputable def crossCount (pts : List (ℝ × ℝ)) (q : ℝ × ℝ) : ℕ :=
  (polyEdges pts).foldr (fun e n => if crosses e q then n + 1 else n) 0

/-- Region of a drawing primitive.  Modelled from the spec: PIL's
rasterizer is outside this repository, so a shape covers the points of its
mathematical region — the ellipse inequality for `ellipse` (written
denominator-free), the inset cross plus four corner disks for
`rounded_rectangle`, the even-odd fill rule the spec prescribes for
`polygon`, and distance at most `w/2` from the segment for `line`. -/
def covers : Shape → ℝ × ℝ → Prop
  | .rrect x0 y0 x1 y1 rad, q =>
      (x0 ≤ q.1 ∧ q.1 ≤ x1 ∧ y0 + rad ≤ q.2 ∧ q.2 ≤ y1 - rad) ∨
      (x0 + rad ≤ q.1 ∧ q.1 ≤ x1 - rad ∧ y0 ≤ q.2 ∧ q.2 ≤ y1) ∨
      (q.1 - (x0 + rad)) ^ 2 + (q.2 - (y0 + rad)) ^ 2 ≤ rad ^ 2 ∨
      (q.1 - (x1 - rad)) ^ 2 + (q.2 - (y0 + rad)) ^ 2 ≤ rad ^ 2 ∨
      (q.1 - (x0 + rad)) ^ 2 + (q.2 - (y1 - rad)) ^ 2 ≤ rad ^ 2 ∨
      (q.1 - (x1 - rad)) ^ 2 + (q.2 - (y1 - rad)) ^ 2 ≤ rad ^ 2
  | .ell x0 y0 x1 y1, q =>
      (2 * q.1 - (x0 + x1)) ^ 2 * (y1 - y0) ^ 2
        + (2 * q.2 - (y0 + y1)) ^ 2 * (x1 - x0) ^ 2
        ≤ (x1 - x0) ^ 2 * (y1 - y0) ^ 2
  | .poly pts, q => Odd (crossCount pts q)
  | .seg x0 y0 x1 y1 w, q =>
      ∃ t : ℝ, 0 ≤ t ∧ t ≤ 1 ∧
        (q.1 - (x0 + t * (x1 - x0))) ^ 2 + (q.2 - (y0 + t * (y1 - y0))) ^ 2 ≤ (w / 2) ^ 2

open Classical in
/-- Painting one operation at a point: a covered point takes the op's ink
(PIL copies the RGBA ink), an uncovered one keeps its color. -/
noncomputable def paintStep (q : ℝ × ℝ) (acc : Ink) (o : Shape × Ink) : Ink :=
  if covers o.1 q then o.2 else acc

/-- Paint the operations in order onto an initially fully transparent
canvas. -/
noncomputable def renderPt (ops : List (Shape × Ink)) (q : ℝ × ℝ) : Ink :=
  ops.foldl (paintStep q) ⟨0, 0, 0, 0⟩

/-- A square RGBA raster; `px i j` samples the pixel at column `i`, row `j`
at its center point. -/
structure PImage where
  width : ℕ
  height : ℕ
  px : ℕ → ℕ → Ink

open Real in
/-- The 36 vertices computed by `draw_rotated_ellipse`: points sampled
uniformly in angle on the axis-aligned ellipse, rotated by the angle
(given in degrees, converted by `math.radians`) and translated to the
center. -/
noncomputable def ellipseVerts (cx cy rx ry angleDeg : ℝ) : List (ℝ × ℝ) :=
  (List.range 36).map fun i : ℕ =>
    (rx * Real.cos (2 * π * (i : ℝ) / 36) * Real.cos (angleDeg * π / 180)
       - ry * Real.sin (2 * π * (i : ℝ) / 36) * Real.sin (angleDeg * π / 180) + cx,
     rx * Real.cos (2 * π * (i : ℝ) / 36) * Real.sin (angleDeg * π / 180)
       + ry * Real.sin (2 * π * (i : ℝ) / 36) * Real.cos (angleDeg * π / 180) + cy)

/-- The script's `draw_rotated_ellipse`: a filled polygon through the 36
sampled vertices. -/
noncomputable def draw_rotated_ellipse (cx cy rx ry angleDeg : ℝ) (color : Ink) :
    Shape × Ink :=
  (Shape.poly (ellipseVerts cx cy rx ry angleDeg), color)

open Classical in
open Real in
/-- One point of the J-shaped body path, already scaled by `s`: a straight
vertical segment for `t < 0.55` and the hook curve afterwards. -/
noncomputable def bodyPoint (s : ℝ) (ti : ℕ) : ℝ × ℝ :=
  if (ti : ℝ) / 99 < 0.55 then
    ((35 + ((ti : ℝ) / 99) / 0.55 * 1) * s, (10 + ((ti : ℝ) / 99) / 0.55 * 30) * s)
  else
    ((36 - (36 - (28 + 12 * Real.sin ((((ti : ℝ) / 99 - 0.55) / 0.45) * π * 0.85))) * 1.0) * s,
     (40 + ((42 + 12 * (1 - Real.cos ((((ti : ℝ) / 99 - 0.55) / 0.45) * π * 0.85)) * 0.7)
        - 42 + 5) * 0.9) * s)

/-- The 100 body path points of `draw_ball_python_j`. -/
noncomputable def bodyPoints (size : ℕ) : List (ℝ × ℝ) :=
  (List.range 100).map (bodyPoint (sFactor size))

/-- A rotated-ellipse specification in design-space coordinates. -/
structure EllSpec where
  cx : ℝ
  cy : ℝ
  rx : ℝ
  ry : ℝ
  ang : ℝ

/-- The dark pattern patches of the design, in design space. -/
noncomputable def patches : List EllSpec :=
  [⟨35.5, 15, 5, 3.5, -5⟩,
   ⟨36, 24, 4.5, 3, 3⟩,
   ⟨36, 33, 5, 3.5, -2⟩,
   ⟨33, 42, 4.5, 3, 15⟩,
   ⟨25, 49, 4, 3, 35⟩,
   ⟨17, 50, 3.5, 2.5, 60⟩]

/-- The lighter belly highlights, in design space. -/
noncomputable def highlights : List EllSpec :=
  [⟨35, 19, 2.5, 1.8, -5⟩,
   ⟨35.5, 29, 2.5, 1.5, 0⟩,
   ⟨34, 38, 2, 1.5, 5⟩,
   ⟨28, 47, 2, 1.2, 30⟩]

/-- The vertex lists of the pattern-patch polygons at a given size: the
design coordinates are multiplied by `s` before `draw_rotated_ellipse`. -/
noncomputable def patchPolys (size : ℕ) : List (List (ℝ × ℝ)) :=
  patches.map fun c =>
    ellipseVerts (c.cx * sFactor size) (c.cy * sFactor size)
      (c.rx * sFactor size) (c.ry * sFactor size) c.ang

/-- The vertex lists of the highlight polygons at a given size. -/
noncomputable def highlightPolys (size : ℕ) : List (List (ℝ × ℝ)) :=
  highlights.map fun c =>
    ellipseVerts (c.cx * sFactor size) (c.cy * sFactor size)
      (c.rx * sFactor size) (c.ry * sFactor size) c.ang

/-- The head polygon vertices. -/
noncomputable def headPoly (size : ℕ) : List (ℝ × ℝ) :=
  ellipseVerts (35 * sFactor size) (8 * sFactor size)
    (6.5 * sFactor size) (5 * sFactor size) (-5)

/-- The lighter head-pattern polygon vertices. -/
noncomputable def headPatternPoly (size : ℕ) : List (ℝ × ℝ) :=
  ellipseVerts (35 * sFactor size) (8 * sFactor size)
    (4.5 * sFactor size) (2.5 * sFactor size) (-5)

/-- An axis-aligned bounding box as passed to `draw.ellipse`. -/
structure Box where
  x0 : ℝ
  y0 : ℝ
  x1 : ℝ
  y1 : ℝ

/-- The eye disk bounding box (`eye_x, eye_y, eye_r` = `33s, 6s, 1.5s`). -/
noncomputable def eyeBox (size : ℕ) : Box :=
  ⟨33 * sFactor size - 1.5 * sFactor size, 6 * sFactor size - 1.5 * sFactor size,
   33 * sFactor size + 1.5 * sFactor size, 6 * sFactor size + 1.5 * sFactor size⟩

/-- The inner iris bounding box (radius `1.0s`). -/
noncomputable def eyeInnerBox (size : ℕ) : Box :=
  ⟨33 * sFactor size - 1.0 * sFactor size, 6 * sFactor size - 1.0 * sFactor size,
   33 * sFactor size + 1.0 * sFactor size, 6 * sFactor size + 1.0 * sFactor size⟩

/-- The specular-highlight bounding box (center offset `(-0.4s, -0.5s)`,
radius `0.4s`). -/
noncomputable def eyeShineBox (size : ℕ) : Box :=
  ⟨(33 * sFactor size - 0.4 * sFactor size) - 0.4 * sFactor size,
   (6 * sFactor size - 0.5 * sFactor size) - 0.4 * sFactor size,
   (33 * sFactor size - 0.4 * sFactor size) + 0.4 * sFactor size,
   (6 * sFactor size - 0.5 * sFactor size) + 0.4 * sFactor size⟩

/-- The nostril bounding box (center `(30.5s, 7.5s)`, radius `0.5s`). -/
noncomputable def nostrilBox (size : ℕ) : Box :=
  ⟨30.5 * sFactor size - 0.5 * sFactor size, 7.5 * sFactor size - 0.5 * sFactor size,
   30.5 * sFactor size + 0.5 * sFactor size, 7.5 * sFactor size + 0.5 * sFactor size⟩

/-- The tongue stroke width `max(1, int(0.6 * s))`. -/
noncomputable def tongueW (size : ℕ) : ℤ := max 1 ⌊0.6 * sFactor size⌋

/-- The four tongue points: fork base start, fork junction, and the two
fork tips, as passed to the three `draw.line` calls. -/
noncomputable def tonguePoints (size : ℕ) : List (ℝ × ℝ) :=
  [(29 * sFactor size, 9 * sFactor size),
   (26.5 * sFactor size, 10.5 * sFactor size),
   (25.5 * sFactor size, 9.8 * sFactor size),
   (25.5 * sFactor size, 11.2 * sFactor size)]

/-- The base tail stroke width `max(1, int(2.5 * s))`. -/
noncomputable def tail_width (size : ℕ) : ℤ := max 1 ⌊2.5 * sFactor size⌋

open Real in
/-- The `i`-th tail path point
`((18 + t*4)*s, (44 - sin(t*π)*2)*s)` with `t = i/19`. -/
noncomputable def tailPt (size : ℕ) (i : ℕ) : ℝ × ℝ :=
  ((18 + (i : ℝ) / 19 * 4) * sFactor size,
   (44 - Real.sin ((i : ℝ) / 19 * π) * 2) * sFactor size)

/-- The 20 tail path points. -/
noncomputable def tailPts (size : ℕ) : List (ℝ × ℝ) :=
  (List.range 20).map (tailPt size)

/-- The tapering width of the `i`-th tail segment:
`max(1, int(tail_width * (1 - i / 20)))`. -/
noncomputable def tailSegW (size : ℕ) (i : ℕ) : ℤ :=
  max 1 ⌊(tail_width size : ℝ) * (1 - (i : ℝ) / 20)⌋

/-- The background rounded rectangle
`[pad, pad, size - pad, size - pad]` with radius `int(12*s)` and the warm
dark fill. -/
noncomputable def bgOp (size : ℕ) : Shape × Ink :=
  (Shape.rrect ((padI size : ℤ) : ℝ) ((padI size : ℤ) : ℝ)
    ((size : ℝ) - ((padI size : ℤ) : ℝ)) ((size : ℝ) - ((padI size : ℤ) : ℝ))
    ((radI size : ℤ) : ℝ), ⟨42, 36, 32, 255⟩)

/-- The complete ordered list of drawing operations performed by
`draw_ball_python_j`: background, body circles, pattern patches,
highlights, head and head pattern, eye disks, nostril, tongue lines, and
tapering tail segments. -/
noncomputable def drawOps (size : ℕ) : List (Shape × Ink) :=
  bgOp size ::
  ((bodyPoints size).map (fun q =>
      (Shape.ell (q.1 - ((body_width size : ℤ) : ℝ)) (q.2 - ((body_width size : ℤ) : ℝ))
        (q.1 + ((body_width size : ℤ) : ℝ)) (q.2 + ((body_width size : ℤ) : ℝ)),
       (⟨196, 149, 85, 255⟩ : Ink)))
   ++ (patchPolys size).map (fun pts => (Shape.poly pts, (⟨92, 61, 46, 200⟩ : Ink)))
   ++ (highlightPolys size).map (fun pts => (Shape.poly pts, (⟨232, 213, 176, 100⟩ : Ink)))
   ++ [(Shape.poly (headPoly size), (⟨107, 66, 38, 255⟩ : Ink)),
       (Shape.poly (headPatternPoly size), (⟨160, 112, 76, 140⟩ : Ink)),
       (Shape.ell (eyeBox size).x0 (eyeBox size).y0 (eyeBox size).x1 (eyeBox size).y1,
        (⟨26, 26, 26, 255⟩ : Ink)),
       (Shape.ell (eyeInnerBox size).x0 (eyeInnerBox size).y0
          (eyeInnerBox size).x1 (eyeInnerBox size).y1, (⟨45, 24, 16, 255⟩ : Ink)),
       (Shape.ell (eyeShineBox size).x0 (eyeShineBox size).y0
          (eyeShineBox size).x1 (eyeShineBox size).y1, (⟨255, 255, 255, 210⟩ : Ink)),
       (Shape.ell (nostrilBox size).x0 (nostrilBox size).y0
          (nostrilBox size).x1 (nostrilBox size).y1, (⟨45, 24, 16, 160⟩ : Ink))]
   ++ [(Shape.seg (29 * sFactor size) (9 * sFactor size)
          (26.5 * sFactor size) (10.5 * sFactor size) ((tongueW size : ℤ) : ℝ),
        (⟨204, 51, 51, 255⟩ : Ink)),
       (Shape.seg (26.5 * sFactor size) (10.5 * sFactor size)
          (25.5 * sFactor size) (9.8 * sFactor size) ((tongueW size : ℤ) : ℝ),
        (⟨204, 51, 51, 255⟩ : Ink)),
       (Shape.seg (26.5 * sFactor size) (10.5 * sFactor size)
          (25.5 * sFactor size) (11.2 * sFactor size) ((tongueW size : ℤ) : ℝ),
        (⟨204, 51, 51, 255⟩ : Ink))]
   ++ (List.range 19).map (fun i =>
        (Shape.seg (tailPt size i).1 (tailPt size i).2
          (tailPt size (i + 1)).1 (tailPt size (i + 1)).2 ((tailSegW size i : ℤ) : ℝ),
         (⟨196, 149, 85, 255⟩ : Ink))))

/-- The composer `draw_ball_python_j`: a `size`×`size` RGBA image obtained
by painting `drawOps` on a transparent canvas, each pixel sampled at its
center. -/
noncomputable def draw_ball_python_j (size : ℕ) : PImage :=
  ⟨size, size, fun i j => renderPt (drawOps size) ((i : ℝ) + 0.5, (j : ℝ) + 0.5)⟩

open Real in
/-- Rotation by `t` radians about the point `(cx, cy)`. -/
noncomputable def rotAbout (cx cy t : ℝ) (p : ℝ × ℝ) : ℝ × ℝ :=
  ((p.1 - cx) * Real.cos t - (p.2 - cy) * Real.sin t + cx,
   (p.1 - cx) * Real.sin t + (p.2 - cy) * Real.cos t + cy)

/-- Pointwise scaling by `s`, as applied to design-space coordinates. -/
noncomputable def scalePt (s : ℝ) (p : ℝ × ℝ) : ℝ × ℝ := (p.1 * s, p.2 * s)

/-- Scaling of a bounding box by `s`. -/
noncomputable def scaleBox (s : ℝ) (b : Box) : Box :=
  ⟨b.x0 * s, b.y0 * s, b.x1 * s, b.y1 * s⟩

open Real in
/-- The x-coordinate of the `i`-th vertex of the head polygon at size 512
(center `(280, 64)`, radii `(52, 40)`, angle `-5` degrees), with the angle
already reduced to `π/36` radians. -/
noncomputable def hvX (i : ℕ) : ℝ :=
  280 + 52 * Real.cos (2 * π * (i : ℝ) / 36) * Real.cos (π / 36)
      + 40 * Real.sin (2 * π * (i : ℝ) / 36) * Real.sin (π / 36)

open Real in
/-- The y-coordinate of the `i`-th vertex of the head polygon at size 512. -/
noncomputable def hvY (i : ℕ) : ℝ :=
  64 - 52 * Real.cos (2 * π * (i : ℝ) / 36) * Real.sin (π / 36)
      + 40 * Real.sin (2 * π * (i : ℝ) / 36) * Real.cos (π / 36)

open Real

theorem beBytes_length (n : ℕ) : (beBytes n).length = 4 := rfl

theorem readBE32_beBytes (n : ℕ) (rest : List ℕ) (h : n < 4294967296) :
    readBE32 (beBytes n ++ rest) = some n := by
  simp only [beBytes, List.cons_append, List.nil_append, readBE32]
  congr 1
  omega

theorem buildEntries_some (encode : ℕ → List ℕ) :
    ∀ l es, buildEntries encode l = some es →
      es = l.map (entryBytes encode) ∧
      ∀ ti ∈ l, 8 + (encode ti.2).length < 4294967296 := by
  intro l
  induction l with
  | nil =>
      intro es h
      simp only [buildEntries, Option.some.injEq] at h
      simp [← h]
  | cons ti rest ih =>
      intro es h
      simp only [buildEntries, bind, Option.bind_eq_some] at h
      obtain ⟨e, he, es', hes', hcons⟩ := h
      have hb : 8 + (encode ti.2).length < 4294967296 := by
        by_contra hge
        simp [entryOpt, beU32, if_neg hge] at he
      have heb : e = entryBytes encode ti := by
        simp only [entryOpt, beU32, if_pos hb] at he
        exact (Option.some.inj he).symm
      obtain ⟨hmap, hbounds⟩ := ih es' hes'
      refine ⟨?_, ?_⟩
      · simp only [Option.some.injEq] at hcons
        simp [← hcons, heb, hmap]
      · intro tj htj
        rcases List.mem_cons.1 htj with h1 | h2
        · exact h1 ▸ hb
        · exact hbounds tj h2

theorem create_icns_some (encode : ℕ → List ℕ) (out : List ℕ)
    (h : create_icns encode = some out) :
    out = [105, 99, 110, 115]
        ++ beBytes (8 + ((iconTypes.map (entryBytes encode)).flatten).length)
        ++ (iconTypes.map (entryBytes encode)).flatten ∧
    8 + ((iconTypes.map (entryBytes encode)).flatten).length < 4294967296 := by
  simp only [create_icns, bind, Option.bind_eq_some] at h
  obtain ⟨es, hes, lb, hlb, hout⟩ := h
  obtain ⟨hmap, -⟩ := buildEntries_some encode iconTypes es hes
  subst hmap
  have hbound : 8 + ((iconTypes.map (entryBytes encode)).flatten).length < 4294967296 := by
    by_contra hge
    simp only [beU32, if_neg hge] at hlb
    simp at hlb
  have hlbe : lb = beBytes (8 + ((iconTypes.map (entryBytes encode)).flatten).length) := by
    simp only [beU32, if_pos hbound, Option.some.injEq] at hlb
    exact hlb.symm
  simp only [Option.some.injEq] at hout
  exact ⟨by rw [← hout, hlbe], hbound⟩

theorem parseEntriesF_fuel :
    ∀ f1 : ℕ, ∀ bs : List ℕ, ∀ f2 : ℕ, bs.length ≤ f1 → bs.length ≤ f2 →
      parseEntriesF f1 bs = parseEntriesF f2 bs := by
  intro f1
  induction f1 with
  | zero =>
      intro bs f2 h1 _
      match bs with
      | [] =>
          match f2 with
          | 0 => rfl
          | g2 + 1 => rfl
      | b :: bs => simp at h1
  | succ g1 ih =>
      intro bs f2 h1 h2
      match bs with
      | [] =>
          match f2 with
          | 0 => rfl
          | g2 + 1 => rfl
      | b :: bs =>
          match f2 with
          | 0 => simp at h2
          | g2 + 1 =>
              simp only [parseEntriesF]
              cases hr : readBE32 ((b :: bs).drop 4) with
              | none => rfl
              | some len =>
                  dsimp only
                  by_cases hc : 8 ≤ len ∧ len ≤ (b :: bs).length
                  · rw [if_pos hc, if_pos hc]
                    have hdrop : ((b :: bs).drop len).length ≤ g1 := by
                      simp only [List.length_drop, List.length_cons]
                      simp only [List.length_cons] at h1
                      omega
                    have hdrop2 : ((b :: bs).drop len).length ≤ g2 := by
                      simp only [List.length_drop, List.length_cons]
                      simp only [List.length_cons] at h2
                      omega
                    rw [ih ((b :: bs).drop len) g2 hdrop hdrop2]
                  · rw [if_neg hc, if_neg hc]

/-- Decoding one well-formed entry off the front of the entry section. -/
theorem parseEntries_cons (tc p rest : List ℕ) (h4 : tc.length = 4)
    (hb : 8 + p.length < 4294967296) :
    parseEntries (tc ++ beBytes (8 + p.length) ++ p ++ rest) =
      (parseEntries rest).map (fun es => (tc, p) :: es) := by
  match tc, h4 with
  | [a, b, c, d], _ =>
    set L : ℕ := 8 + p.length with hL
    set hdr : List ℕ := [a, b, c, d] ++ beBytes L with hhdr
    have hhdr8 : hdr.length = 8 := by simp [hhdr, beBytes]
    have hbs : [a, b, c, d] ++ beBytes L ++ p ++ rest = hdr ++ (p ++ rest) := by
      simp [hhdr, List.append_assoc]
    have hcons : hdr ++ (p ++ rest)
        = a :: b :: c :: d :: L / 16777216 % 256 :: L / 65536 % 256 ::
          L / 256 % 256 :: L % 256 :: (p ++ rest) := by
      simp [hhdr, beBytes]
    have hlen : (hdr ++ (p ++ rest)).length = 8 + (p.length + rest.length) := by
      simp [hhdr8]
    have htake : ((hdr ++ (p ++ rest)).take L).drop 8 = p := by
      rw [List.take_append_eq_append_take, List.take_of_length_le (by omega),
        List.drop_append_eq_append_drop, List.drop_of_length_le (by omega), hhdr8]
      rw [show L - 8 = p.length from by omega]
      rw [List.take_left, show 8 - 8 = 0 from rfl, List.drop_zero, List.nil_append]
    have hdropL : (hdr ++ (p ++ rest)).drop L = rest := by
      rw [List.drop_append_eq_append_drop, List.drop_of_length_le (by omega), hhdr8]
      rw [show L - 8 = p.length from by omega, List.drop_left, List.nil_append]
    have htake4 : (hdr ++ (p ++ rest)).take 4 = [a, b, c, d] := by
      rw [hcons]; rfl
    have hdrop4 : (hdr ++ (p ++ rest)).drop 4
        = L / 16777216 % 256 :: L / 65536 % 256 :: L / 256 % 256 :: L % 256 :: (p ++ rest) := by
      rw [hcons]
      rfl
    have hread : readBE32 ((hdr ++ (p ++ rest)).drop 4) = some L := by
      rw [hdrop4]
      have : L / 16777216 % 256 :: L / 65536 % 256 :: L / 256 % 256 :: L % 256 :: (p ++ rest)
          = beBytes L ++ (p ++ rest) := by simp [beBytes]
      rw [this, readBE32_beBytes L (p ++ rest) hb]
    rw [hbs, parseEntries, hlen, hcons]
    rw [show 8 + (p.length + rest.length) = (7 + (p.length + rest.length)) + 1 from by omega]
    simp only [parseEntriesF]
    rw [← hcons, hread]
    dsimp only
    have hcond : 8 ≤ L ∧ L ≤ (hdr ++ (p ++ rest)).length := by
      constructor
      · omega
      · rw [hlen]; omega
    rw [if_pos hcond, hdropL, htake4, htake]
    have hfuel : parseEntriesF (7 + (p.length + rest.length)) rest
        = parseEntriesF rest.length rest :=
      parseEntriesF_fuel _ rest rest.length (by omega) (le_refl _)
    rw [hfuel]
    show (match parseEntries rest with
      | none => none
      | some es => some (([a, b, c, d], p) :: es)) = _
    cases parseEntries rest with
    | none => rfl
    | some es => rfl

theorem create_icns_bounds (encode : ℕ → List ℕ) (out : List ℕ)
    (h : create_icns encode = some out) :
    ∀ ti ∈ iconTypes, 8 + (encode ti.2).length < 4294967296 := by
  simp only [create_icns, bind, Option.bind_eq_some] at h
  obtain ⟨es, hes, -⟩ := h
  exact (buildEntries_some encode iconTypes es hes).2

/-- C1: for every master image (represented by its per-size PNG encoder),
the ICNS bytes are exactly the 4 ASCII bytes of `icns`, a big-endian
uint32 total file length, then the concatenated entries, where the total
is `8` plus the sum of the entry lengths and equals the length of the
whole output. -/
theorem icns_layout_total_length (encode : ℕ → List ℕ) (out : List ℕ)
    (h : create_icns encode = some out) :
    out = [105, 99, 110, 115]
        ++ beBytes (8 + ((iconTypes.map (entryBytes encode)).map List.length).sum)
        ++ (iconTypes.map (entryBytes encode)).flatten ∧
    8 + ((iconTypes.map (entryBytes encode)).map List.length).sum = out.length := by
  obtain ⟨hout, hb⟩ := create_icns_some encode out h
  have hsum : ((iconTypes.map (entryBytes encode)).flatten).length
      = ((iconTypes.map (entryBytes encode)).map List.length).sum :=
    List.length_flatten _
  refine ⟨by rw [hout, hsum], ?_⟩
  rw [hout]
  simp only [List.length_append, List.length_cons, List.length_nil, beBytes, hsum]

/-- Witness for C1 at the concrete encoder `enc0`. -/
theorem icns_layout_total_length_w :
    create_icns enc0 = some out0 ∧
    (out0 = [105, 99, 110, 115]
        ++ beBytes (8 + ((iconTypes.map (entryBytes enc0)).map List.length).sum)
        ++ (iconTypes.map (entryBytes enc0)).flatten ∧
     8 + ((iconTypes.map (entryBytes enc0)).map List.length).sum = out0.length) :=
  ⟨by decide, icns_layout_total_length enc0 out0 (by decide)⟩

/-- C2 (amended): the output starts with the ASCII bytes of `icns`, and the
big-endian uint32 at byte offset 4 equals the output's total length (the
script stores `8 + len(body)`, which is the whole file length, not the
length minus 8). -/
theorem icns_header_magic_total (encode : ℕ → List ℕ) (out : List ℕ)
    (h : create_icns encode = some out) :
    out.take 4 = [105, 99, 110, 115] ∧ readBE32 (out.drop 4) = some out.length := by
  obtain ⟨hout, hb⟩ := create_icns_some encode out h
  subst hout
  refine ⟨rfl, ?_⟩
  have hdrop : ([105, 99, 110, 115]
      ++ beBytes (8 + ((iconTypes.map (entryBytes encode)).flatten).length)
      ++ (iconTypes.map (entryBytes encode)).flatten).drop 4
      = beBytes (8 + ((iconTypes.map (entryBytes encode)).flatten).length)
        ++ (iconTypes.map (entryBytes encode)).flatten := rfl
  rw [hdrop, readBE32_beBytes _ _ hb]
  congr 1
  simp only [List.length_append, List.length_cons, List.length_nil, beBytes]

/-- Witness for the amended C2 at the concrete encoder `enc0`. -/
theorem icns_header_magic_total_w :
    create_icns enc0 = some out0 ∧
    (out0.take 4 = [105, 99, 110, 115] ∧ readBE32 (out0.drop 4) = some out0.length) :=
  ⟨by decide, icns_header_magic_total enc0 out0 (by decide)⟩

/-- Counterexample to C2 as stated: for the concrete encoder `enc0` the
uint32 at offset 4 decodes to 56, the whole file length, not the file
length minus 8 (which is 48). -/
theorem icns_offset4_not_minus8_cex :
    create_icns enc0 = some out0 ∧
    ¬ readBE32 (out0.drop 4) = some (out0.length - 8) := by
  decide

/-- C4: the entry section decodes to exactly 6 entries, whose type codes
are `icp4, icp5, icp6, ic07, ic08, ic09` and whose payloads are the PNG
encodings at pixel sizes 16, 32, 64, 128, 256, 512, in exactly that
order. -/
theorem icns_six_entries (encode : ℕ → List ℕ) (out : List ℕ)
    (h : create_icns encode = some out) :
    parseEntries (out.drop 8) =
      some [([105, 99, 112, 52], encode 16),
            ([105, 99, 112, 53], encode 32),
            ([105, 99, 112, 54], encode 64),
            ([105, 99, 48, 55], encode 128),
            ([105, 99, 48, 56], encode 256),
            ([105, 99, 48, 57], encode 512)] := by
  have hbounds := create_icns_bounds encode out h
  obtain ⟨hout, -⟩ := create_icns_some encode out h
  have hdrop : out.drop 8 = (iconTypes.map (entryBytes encode)).flatten := by
    rw [hout]
    rfl
  rw [hdrop]
  simp only [iconTypes, List.map_cons, List.map_nil, List.flatten_cons, List.flatten_nil,
    entryBytes]
  rw [List.append_nil]
  rw [parseEntries_cons [105, 99, 112, 52] (encode 16) _ rfl (hbounds ([105, 99, 112, 52], 16) (by simp [iconTypes]))]
  rw [parseEntries_cons [105, 99, 112, 53] (encode 32) _ rfl (hbounds ([105, 99, 112, 53], 32) (by simp [iconTypes]))]
  rw [parseEntries_cons [105, 99, 112, 54] (encode 64) _ rfl (hbounds ([105, 99, 112, 54], 64) (by simp [iconTypes]))]
  rw [parseEntries_cons [105, 99, 48, 55] (encode 128) _ rfl (hbounds ([105, 99, 48, 55], 128) (by simp [iconTypes]))]
  rw [parseEntries_cons [105, 99, 48, 56] (encode 256) _ rfl (hbounds ([105, 99, 48, 56], 256) (by simp [iconTypes]))]
  have hlast : parseEntries (entryBytes encode ([105, 99, 48, 57], 512)) =
      (parseEntries []).map (fun es => (([105, 99, 48, 57] : List ℕ), encode 512) :: es) := by
    have := parseEntries_cons [105, 99, 48, 57] (encode 512) [] rfl
      (hbounds ([105, 99, 48, 57], 512) (by simp [iconTypes]))
    simpa [entryBytes] using this
  simp only [entryBytes] at hlast
  rw [hlast]
  rfl

/-- Witness for C4 at the concrete encoder `enc0`. -/
theorem icns_six_entries_w :
    create_icns enc0 = some out0 ∧
    parseEntries (out0.drop 8) =
      some [([105, 99, 112, 52], enc0 16),
            ([105, 99, 112, 53], enc0 32),
            ([105, 99, 112, 54], enc0 64),
            ([105, 99, 48, 55], enc0 128),
            ([105, 99, 48, 56], enc0 256),
            ([105, 99, 48, 57], enc0 512)] :=
  ⟨by decide, icns_six_entries enc0 out0 (by decide)⟩

/-- C5: each emitted entry is its 4-byte type code, then a big-endian
uint32 equal to 8 plus the PNG payload length — that is, the entry's own
total length including its 8-byte header — then the payload; and the entry
section is the concatenation of the entries in the order of the size
table. -/
theorem icns_entry_structure (encode : ℕ → List ℕ) (out : List ℕ)
    (h : create_icns encode = some out) :
    out.drop 8 = (iconTypes.map (entryBytes encode)).flatten ∧
    ∀ ti ∈ iconTypes,
      (entryBytes encode ti).take 4 = ti.1 ∧
      (entryBytes encode ti).length = 8 + (encode ti.2).length ∧
      readBE32 ((entryBytes encode ti).drop 4) = some (entryBytes encode ti).length ∧
      (entryBytes encode ti).drop 8 = encode ti.2 := by
  have hbounds := create_icns_bounds encode out h
  obtain ⟨hout, -⟩ := create_icns_some encode out h
  refine ⟨by rw [hout]; rfl, ?_⟩
  intro ti hti
  have hb := hbounds ti hti
  have hlen : (entryBytes encode ti).length = 8 + (encode ti.2).length := by
    have h1 : ti.1.length = 4 := by
      fin_cases hti <;> rfl
    simp [entryBytes, beBytes, h1]
    omega
  refine ⟨?_, hlen, ?_, ?_⟩
  · fin_cases hti <;> rfl
  · have hdrop : (entryBytes encode ti).drop 4 = beBytes (8 + (encode ti.2).length) ++ encode ti.2 := by
      fin_cases hti <;> rfl
    rw [hdrop, readBE32_beBytes _ _ hb, hlen]
  · fin_cases hti <;> rfl

/-- Witness for C5 at the concrete encoder `enc0`. -/
theorem icns_entry_structure_w :
    out0.drop 8 = (iconTypes.map (entryBytes enc0)).flatten ∧
    ∀ ti ∈ iconTypes,
      (entryBytes enc0 ti).take 4 = ti.1 ∧
      (entryBytes enc0 ti).length = 8 + (enc0 ti.2).length ∧
      readBE32 ((entryBytes enc0 ti).drop 4) = some (entryBytes enc0 ti).length ∧
      (entryBytes enc0 ti).drop 8 = enc0 ti.2 :=
  icns_entry_structure enc0 out0 (by decide)

theorem renderPt_foldl_nocover (ops : List (Shape × Ink)) (q : ℝ × ℝ) (init : Ink)
    (h : ∀ o ∈ ops, ¬ covers o.1 q) :
    ops.foldl (paintStep q) init = init := by
  induction ops generalizing init with
  | nil => rfl
  | cons o rest ih =>
      simp only [List.foldl_cons, paintStep]
      rw [if_neg (h o (List.mem_cons_self o rest))]
      exact ih init fun o' ho' => h o' (List.mem_cons_of_mem o ho')

theorem renderPt_foldl_alpha_ne (ops : List (Shape × Ink)) (q : ℝ × ℝ) :
    ∀ init : Ink, (∀ o ∈ ops, o.2.a ≠ 0) →
      ((∃ o ∈ ops, covers o.1 q) ∨ init.a ≠ 0) →
      (ops.foldl (paintStep q) init).a ≠ 0 := by
  induction ops with
  | nil =>
      intro init _ hc
      rcases hc with ⟨o, ho, -⟩ | hi
      · simp at ho
      · exact hi
  | cons o rest ih =>
      intro init ha hc
      simp only [List.foldl_cons, paintStep]
      by_cases hcov : covers o.1 q
      · rw [if_pos hcov]
        refine ih o.2 (fun o' ho' => ha o' (List.mem_cons_of_mem o ho')) (Or.inr ?_)
        exact ha o (List.mem_cons_self o rest)
      · rw [if_neg hcov]
        refine ih init (fun o' ho' => ha o' (List.mem_cons_of_mem o ho')) ?_
        rcases hc with ⟨o', ho', hcov'⟩ | hi
        · rcases List.mem_cons.1 ho' with rfl | hmem
          · exact absurd hcov' hcov
          · exact Or.inl ⟨o', hmem, hcov'⟩
        · exact Or.inr hi

/-- C3 (amended): the composer output is a `size`×`size` image, and every
pixel is either covered by the region of one of the drawn shapes
(background or foreground) or fully transparent.  The original claim —
transparency outside the background rounded rectangle alone — fails
because the head polygon extends above the rounded rectangle. -/
theorem composer_dims_alpha_outside (size i j : ℕ) :
    (draw_ball_python_j size).width = size ∧
    (draw_ball_python_j size).height = size ∧
    ((∃ o ∈ drawOps size, covers o.1 ((i : ℝ) + 0.5, (j : ℝ) + 0.5)) ∨
      ((draw_ball_python_j size).px i j).a = 0) := by
  refine ⟨rfl, rfl, ?_⟩
  by_cases h : ∃ o ∈ drawOps size, covers o.1 ((i : ℝ) + 0.5, (j : ℝ) + 0.5)
  · exact Or.inl h
  · right
    push_neg at h
    show (renderPt (drawOps size) ((i : ℝ) + 0.5, (j : ℝ) + 0.5)).a = 0
    rw [renderPt, renderPt_foldl_nocover (drawOps size) _ _ h]

/-- C6: both pipeline stages are deterministic — in this embedding they are
functions of their inputs (the script uses no randomness), so equal inputs
give pixel- and byte-identical outputs. -/
theorem composer_packager_deterministic (size : ℕ) (encode : ℕ → List ℕ) :
    draw_ball_python_j size = draw_ball_python_j size ∧
    create_icns encode = create_icns encode :=
  ⟨rfl, rfl⟩

theorem sFactor_64 : sFactor 64 = 1 := by
  norm_num [sFactor]

theorem ellipseVerts_length (cx cy rx ry ang : ℝ) :
    (ellipseVerts cx cy rx ry ang).length = 36 := by
  unfold ellipseVerts
  rw [List.length_map, List.length_range]

theorem ellipseVerts_zero (cx cy rx ry : ℝ) :
    ellipseVerts cx cy rx ry 0 = (List.range 36).map
      (fun i : ℕ => (cx + rx * Real.cos (2 * π * (i : ℝ) / 36),
        cy + ry * Real.sin (2 * π * (i : ℝ) / 36))) := by
  unfold ellipseVerts
  refine List.map_congr_left fun i _ => ?_
  rw [show (0 : ℝ) * π / 180 = 0 by ring]
  rw [Real.cos_zero, Real.sin_zero]
  simp only [Prod.mk.injEq]
  constructor <;> ring

/-- C8: `draw_rotated_ellipse` samples exactly 36 vertices uniformly in
angle, and for rotation angle 0 the bounding box of the vertices is
exactly the unrotated ellipse's axis-aligned bounding box
`[cx-rx, cx+rx] × [cy-ry, cy+ry]` (zero error, hence within one pixel). -/
theorem rotated_ellipse_zero_bbox (cx cy rx ry : ℝ) (hx : 0 ≤ rx) (hy : 0 ≤ ry) :
    (ellipseVerts cx cy rx ry 0).length = 36 ∧
    ((ellipseVerts cx cy rx ry 0).map Prod.fst).maximum = ((cx + rx : ℝ) : WithBot ℝ) ∧
    ((ellipseVerts cx cy rx ry 0).map Prod.fst).minimum = ((cx - rx : ℝ) : WithTop ℝ) ∧
    ((ellipseVerts cx cy rx ry 0).map Prod.snd).maximum = ((cy + ry : ℝ) : WithBot ℝ) ∧
    ((ellipseVerts cx cy rx ry 0).map Prod.snd).minimum = ((cy - ry : ℝ) : WithTop ℝ) := by
  rw [ellipseVerts_zero, List.map_map, List.map_map]
  refine ⟨by rw [List.length_map, List.length_range], ?_, ?_, ?_, ?_⟩
  · rw [List.maximum_eq_coe_iff]
    constructor
    · refine List.mem_map.2 ⟨0, List.mem_range.2 (by norm_num), ?_⟩
      simp only [Function.comp, Nat.cast_zero]
      rw [show (2 : ℝ) * π * 0 / 36 = 0 by ring, Real.cos_zero]
      ring
    · intro b hb
      obtain ⟨i, -, hib⟩ := List.mem_map.1 hb
      rw [← hib]
      simp only [Function.comp]
      have h := mul_le_mul_of_nonneg_left (Real.cos_le_one (2 * π * i / 36)) hx
      rw [mul_one] at h
      linarith
  · rw [List.minimum_eq_coe_iff]
    constructor
    · refine List.mem_map.2 ⟨18, List.mem_range.2 (by norm_num), ?_⟩
      simp only [Function.comp]
      push_cast
      rw [show (2 : ℝ) * π * 18 / 36 = π by ring, Real.cos_pi]
      ring
    · intro b hb
      obtain ⟨i, -, hib⟩ := List.mem_map.1 hb
      rw [← hib]
      simp only [Function.comp]
      have h := mul_le_mul_of_nonneg_left (Real.neg_one_le_cos (2 * π * i / 36)) hx
      rw [mul_neg_one] at h
      linarith
  · rw [List.maximum_eq_coe_iff]
    constructor
    · refine List.mem_map.2 ⟨9, List.mem_range.2 (by norm_num), ?_⟩
      simp only [Function.comp]
      push_cast
      rw [show (2 : ℝ) * π * 9 / 36 = π / 2 by ring, Real.sin_pi_div_two]
      ring
    · intro b hb
      obtain ⟨i, -, hib⟩ := List.mem_map.1 hb
      rw [← hib]
      simp only [Function.comp]
      have h := mul_le_mul_of_nonneg_left (Real.sin_le_one (2 * π * i / 36)) hy
      rw [mul_one] at h
      linarith
  · rw [List.minimum_eq_coe_iff]
    constructor
    · refine List.mem_map.2 ⟨27, List.mem_range.2 (by norm_num), ?_⟩
      simp only [Function.comp]
      push_cast
      rw [show (2 : ℝ) * π * 27 / 36 = 2 * π - π / 2 by ring, Real.sin_two_pi_sub,
        Real.sin_pi_div_two]
      ring
    · intro b hb
      obtain ⟨i, -, hib⟩ := List.mem_map.1 hb
      rw [← hib]
      simp only [Function.comp]
      have h := mul_le_mul_of_nonneg_left (Real.neg_one_le_sin (2 * π * i / 36)) hy
      rw [mul_neg_one] at h
      linarith

/-- Witness for C8 at the unit circle centered at the origin. -/
theorem rotated_ellipse_zero_bbox_w :
    (0 : ℝ) ≤ 1 ∧
    ((ellipseVerts 0 0 1 1 0).length = 36 ∧
     ((ellipseVerts 0 0 1 1 0).map Prod.fst).maximum = (((0 : ℝ) + 1 : ℝ) : WithBot ℝ) ∧
     ((ellipseVerts 0 0 1 1 0).map Prod.fst).minimum = (((0 : ℝ) - 1 : ℝ) : WithTop ℝ) ∧
     ((ellipseVerts 0 0 1 1 0).map Prod.snd).maximum = (((0 : ℝ) + 1 : ℝ) : WithBot ℝ) ∧
     ((ellipseVerts 0 0 1 1 0).map Prod.snd).minimum = (((0 : ℝ) - 1 : ℝ) : WithTop ℝ)) :=
  ⟨by norm_num, rotated_ellipse_zero_bbox 0 0 1 1 (by norm_num) (by norm_num)⟩

/-- C9: the vertex list computed at rotation angle `a` equals the vertex
list computed at angle 0 rotated vertex-by-vertex by `a` (in radians,
`a*π/180`) about the center — rotation commutes with the sampling. -/
theorem rotated_ellipse_rotation_commutes (cx cy rx ry a : ℝ) :
    ellipseVerts cx cy rx ry a =
      (ellipseVerts cx cy rx ry 0).map (rotAbout cx cy (a * π / 180)) := by
  rw [ellipseVerts_zero]
  unfold ellipseVerts
  rw [List.map_map]
  refine List.map_congr_left fun i _ => ?_
  simp only [Function.comp, rotAbout]
  simp only [Prod.mk.injEq]
  constructor <;> ring

theorem ellipseVerts_scale (cx cy rx ry ang s : ℝ) :
    ellipseVerts (cx * s) (cy * s) (rx * s) (ry * s) ang =
      (ellipseVerts cx cy rx ry ang).map (scalePt s) := by
  unfold ellipseVerts
  rw [List.map_map]
  refine List.map_congr_left fun i _ => ?_
  simp only [Function.comp, scalePt]
  simp only [Prod.mk.injEq]
  constructor <;> ring

theorem bodyPoint_scale (s : ℝ) (t : ℕ) :
    bodyPoint s t = scalePt s (bodyPoint 1 t) := by
  unfold bodyPoint scalePt
  by_cases h : ((t : ℝ) / 99 : ℝ) < 0.55
  · rw [if_pos h, if_pos h]
    dsimp only
    simp only [Prod.mk.injEq]
    constructor <;> ring
  · rw [if_neg h, if_neg h]
    dsimp only
    simp only [Prod.mk.injEq]
    constructor <;> ring

/-- C7 (amended): all coordinates that the composer passes to drawing
primitives without integer truncation — the body path points, the tail
path points, the tongue line endpoints, every rotated-ellipse polygon
vertex list, and the eye/iris/shine/nostril bounding boxes — are exactly
the size-64 design coordinates scaled pointwise by `S/64`.  (The
background pad and radius and the stroke widths go through `int()` and
only scale up to truncation; see the counterexample.) -/
theorem composer_coords_scale (size : ℕ) :
    bodyPoints size = (bodyPoints 64).map (scalePt (sFactor size)) ∧
    tailPts size = (tailPts 64).map (scalePt (sFactor size)) ∧
    tonguePoints size = (tonguePoints 64).map (scalePt (sFactor size)) ∧
    patchPolys size = (patchPolys 64).map (List.map (scalePt (sFactor size))) ∧
    highlightPolys size = (highlightPolys 64).map (List.map (scalePt (sFactor size))) ∧
    headPoly size = (headPoly 64).map (scalePt (sFactor size)) ∧
    headPatternPoly size = (headPatternPoly 64).map (scalePt (sFactor size)) ∧
    eyeBox size = scaleBox (sFactor size) (eyeBox 64) ∧
    eyeInnerBox size = scaleBox (sFactor size) (eyeInnerBox 64) ∧
    eyeShineBox size = scaleBox (sFactor size) (eyeShineBox 64) ∧
    nostrilBox size = scaleBox (sFactor size) (nostrilBox 64) := by
  have hvs : ∀ cx cy rx ry ang : ℝ,
      ellipseVerts (cx * sFactor size) (cy * sFactor size)
          (rx * sFactor size) (ry * sFactor size) ang
        = (ellipseVerts (cx * sFactor 64) (cy * sFactor 64)
            (rx * sFactor 64) (ry * sFactor 64) ang).map (scalePt (sFactor size)) := by
    intro cx cy rx ry ang
    rw [sFactor_64]
    simp only [mul_one]
    exact ellipseVerts_scale cx cy rx ry ang (sFactor size)
  refine ⟨?_, ?_, ?_, ?_, ?_, ?_, ?_, ?_, ?_, ?_, ?_⟩
  · unfold bodyPoints
    rw [List.map_map]
    refine List.map_congr_left fun t _ => ?_
    simp only [Function.comp, sFactor_64]
    exact bodyPoint_scale (sFactor size) t
  · unfold tailPts
    rw [List.map_map]
    refine List.map_congr_left fun i _ => ?_
    simp only [Function.comp, tailPt, scalePt, sFactor_64]
    simp only [Prod.mk.injEq]
    constructor <;> ring
  · simp only [tonguePoints, scalePt, sFactor_64, List.map_cons, List.map_nil]
    norm_num
  · unfold patchPolys
    rw [List.map_map]
    exact List.map_congr_left fun c _ => hvs c.cx c.cy c.rx c.ry c.ang
  · unfold highlightPolys
    rw [List.map_map]
    exact List.map_congr_left fun c _ => hvs c.cx c.cy c.rx c.ry c.ang
  · exact hvs 35 8 6.5 5 (-5)
  · exact hvs 35 8 4.5 2.5 (-5)
  · simp only [eyeBox, scaleBox, sFactor_64, Box.mk.injEq]
    refine ⟨by ring, by ring, by ring, by ring⟩
  · simp only [eyeInnerBox, scaleBox, sFactor_64, Box.mk.injEq]
    refine ⟨by ring, by ring, by ring, by ring⟩
  · simp only [eyeShineBox, scaleBox, sFactor_64, Box.mk.injEq]
    refine ⟨by ring, by ring, by ring, by ring⟩
  · simp only [nostrilBox, scaleBox, sFactor_64, Box.mk.injEq]
    refine ⟨by ring, by ring, by ring, by ring⟩

/-- Counterexample to C7 as stated: the background rounded rectangle's
first coordinate `pad = int(4*S/64)` at size 100 is 6, while the design
constant 4 scaled by `100/64` is 6.25 — integer truncation breaks exact
scaling. -/
theorem composer_coords_scale_cex : ((padI 100 : ℤ) : ℝ) ≠ 4 * ((100 : ℝ) / 64) := by
  have h : padI 100 = 6 := by
    unfold padI sFactor
    rw [show (4 : ℝ) * (((100 : ℕ) : ℝ) / 64) = 6.25 by norm_num]
    rw [Int.floor_eq_iff]
    norm_num
  rw [h]
  norm_num

/-- C10: every stroke width passed to `draw.line` — the tongue width
`max(1, int(0.6*s))` and each tapering tail width
`max(1, int(tail_width*(1 - i/20)))` — is at least 1, so a zero-width line
is never requested at any size. -/
theorem line_widths_at_least_one (size : ℕ) (sh : Shape) (ink : Ink)
    (hmem : (sh, ink) ∈ drawOps size) :
    ∀ x0 y0 x1 y1 w, sh = Shape.seg x0 y0 x1 y1 w → 1 ≤ w := by
  intro x0 y0 x1 y1 w hsh
  subst hsh
  have htw : (1 : ℝ) ≤ ((tongueW size : ℤ) : ℝ) := by
    have h1 : (1 : ℤ) ≤ tongueW size := le_max_left _ _
    exact_mod_cast h1
  have hsw : ∀ i : ℕ, (1 : ℝ) ≤ ((tailSegW size i : ℤ) : ℝ) := by
    intro i
    have h1 : (1 : ℤ) ≤ tailSegW size i := le_max_left _ _
    exact_mod_cast h1
  rw [drawOps] at hmem
  rcases List.mem_cons.1 hmem with h | h0
  · simpa [bgOp] using congrArg Prod.fst h
  rcases List.mem_append.1 h0 with h1 | hF
  · rcases List.mem_append.1 h1 with h2 | hE
    · rcases List.mem_append.1 h2 with h3 | hD
      · rcases List.mem_append.1 h3 with h4 | hC
        · rcases List.mem_append.1 h4 with hA | hB
          · obtain ⟨q, -, heq⟩ := List.mem_map.1 hA
            simpa using congrArg Prod.fst heq
          · obtain ⟨pts, -, heq⟩ := List.mem_map.1 hB
            simpa using congrArg Prod.fst heq
        · obtain ⟨pts, -, heq⟩ := List.mem_map.1 hC
          simpa using congrArg Prod.fst heq
      · simp only [List.mem_cons, List.not_mem_nil, or_false] at hD
        rcases hD with h | h | h | h | h | h <;> simpa using congrArg Prod.fst h
    · simp only [List.mem_cons, List.not_mem_nil, or_false] at hE
      rcases hE with h | h | h
      all_goals
        obtain ⟨-, -, -, -, hw⟩ := Shape.seg.inj (congrArg Prod.fst h)
        rw [hw]
        exact htw
  · obtain ⟨i, -, heq⟩ := List.mem_map.1 hF
    obtain ⟨-, -, -, -, hw⟩ := Shape.seg.inj (congrArg Prod.fst heq)
    rw [← hw]
    exact hsw i

/-- Witness for C10: the first tongue line op at size 64 is in the op list
and its width is at least 1. -/
theorem line_widths_at_least_one_w :
    ((Shape.seg (29 * sFactor 64) (9 * sFactor 64) (26.5 * sFactor 64) (10.5 * sFactor 64)
        ((tongueW 64 : ℤ) : ℝ), (⟨204, 51, 51, 255⟩ : Ink)) ∈ drawOps 64) ∧
    (1 : ℝ) ≤ ((tongueW 64 : ℤ) : ℝ) := by
  have hmem : (Shape.seg (29 * sFactor 64) (9 * sFactor 64) (26.5 * sFactor 64)
      (10.5 * sFactor 64) ((tongueW 64 : ℤ) : ℝ), (⟨204, 51, 51, 255⟩ : Ink)) ∈ drawOps 64 := by
    unfold drawOps
    refine List.mem_cons_of_mem _ ?_
    refine List.mem_append_left _ ?_
    refine List.mem_append_right _ ?_
    exact List.mem_cons_self _ _
  exact ⟨hmem, line_widths_at_least_one 64 _ _ hmem _ _ _ _ _ rfl⟩

theorem crosses_of_lt (x1 y1 x2 y2 px py : ℝ)
    (hy : y1 ≤ py ∧ py < y2 ∨ y2 ≤ py ∧ py < y1)
    (hx1 : px < x1) (hx2 : px < x2) :
    crosses ((x1, y1), (x2, y2)) (px, py) := by
  refine ⟨hy, ?_⟩
  have hne : y2 - y1 ≠ 0 := by
    rcases hy with ⟨h1, h2⟩ | ⟨h1, h2⟩ <;> intro h <;> nlinarith
  have ht0 : 0 ≤ (py - y1) / (y2 - y1) := by
    rcases hy with ⟨h1, h2⟩ | ⟨h1, h2⟩
    · exact div_nonneg (by linarith) (by linarith)
    · rw [div_nonneg_iff]
      right
      constructor <;> linarith
  have ht1 : (py - y1) / (y2 - y1) ≤ 1 := by
    rcases hy with ⟨h1, h2⟩ | ⟨h1, h2⟩
    · rw [div_le_one (by linarith)]
      linarith
    · rw [div_le_one_iff]
      right
      right
      constructor <;> linarith
  set t : ℝ := (py - y1) / (y2 - y1) with hts
  have key : x1 + (py - y1) * (x2 - x1) / (y2 - y1) = (1 - t) * x1 + t * x2 := by
    rw [hts]
    field_simp
    ring
  show px < x1 + (py - y1) * (x2 - x1) / (y2 - y1)
  rw [key]
  have h1 : (1 - t) * min (x1 - px) (x2 - px) ≤ (1 - t) * (x1 - px) :=
    mul_le_mul_of_nonneg_left (min_le_left _ _) (by linarith)
  have h2 : t * min (x1 - px) (x2 - px) ≤ t * (x2 - px) :=
    mul_le_mul_of_nonneg_left (min_le_right _ _) ht0
  have hmpos : 0 < min (x1 - px) (x2 - px) := lt_min (by linarith) (by linarith)
  nlinarith

theorem not_crosses_xle (x1 y1 x2 y2 px py : ℝ) (hx1 : x1 ≤ px) (hx2 : x2 ≤ px) :
    ¬ crosses ((x1, y1), (x2, y2)) (px, py) := by
  rintro ⟨hy, hlt⟩
  have hne : y2 - y1 ≠ 0 := by
    rcases hy with ⟨h1, h2⟩ | ⟨h1, h2⟩ <;> intro h <;> nlinarith
  have ht0 : 0 ≤ (py - y1) / (y2 - y1) := by
    rcases hy with ⟨h1, h2⟩ | ⟨h1, h2⟩
    · exact div_nonneg (by linarith) (by linarith)
    · rw [div_nonneg_iff]
      right
      constructor <;> linarith
  have ht1 : (py - y1) / (y2 - y1) ≤ 1 := by
    rcases hy with ⟨h1, h2⟩ | ⟨h1, h2⟩
    · rw [div_le_one (by linarith)]
      linarith
    · rw [div_le_one_iff]
      right
      right
      constructor <;> linarith
  set t : ℝ := (py - y1) / (y2 - y1) with hts
  have key : x1 + (py - y1) * (x2 - x1) / (y2 - y1) = (1 - t) * x1 + t * x2 := by
    rw [hts]
    field_simp
    ring
  rw [key] at hlt
  have h1 : (1 - t) * x1 ≤ (1 - t) * px :=
    mul_le_mul_of_nonneg_left hx1 (by linarith)
  have h2 : t * x2 ≤ t * px := mul_le_mul_of_nonneg_left hx2 ht0
  nlinarith

theorem not_crosses_above (x1 y1 x2 y2 px py : ℝ) (h1 : py < y1) (h2 : py < y2) :
    ¬ crosses ((x1, y1), (x2, y2)) (px, py) := by
  rintro ⟨hy, -⟩
  rcases hy with ⟨h, -⟩ | ⟨h, -⟩ <;> simp only at h <;> linarith

theorem not_crosses_below (x1 y1 x2 y2 px py : ℝ) (h1 : y1 ≤ py) (h2 : y2 ≤ py) :
    ¬ crosses ((x1, y1), (x2, y2)) (px, py) := by
  rintro ⟨hy, -⟩
  rcases hy with ⟨-, h⟩ | ⟨-, h⟩ <;> simp only at h <;> linarith

theorem sqrt3_bounds : 1.732 ≤ Real.sqrt 3 ∧ Real.sqrt 3 ≤ 1.7321 := by
  have h := Real.sq_sqrt (by norm_num : (0 : ℝ) ≤ 3)
  have h0 := Real.sqrt_nonneg 3
  constructor <;> nlinarith

theorem sin_bounds_of_interval (x l u a b : ℝ) (h0 : 0 ≤ l) (hl : l ≤ x) (hu : x ≤ u)
    (h1 : u ≤ 1) (hlo : a ≤ l - u ^ 3 / 6 - u ^ 4 * (5 / 96))
    (hhi : u - l ^ 3 / 6 + u ^ 4 * (5 / 96) ≤ b) :
    a ≤ Real.sin x ∧ Real.sin x ≤ b := by
  have hx0 : 0 ≤ x := le_trans h0 hl
  have habs : |x| ≤ 1 := by
    rw [abs_of_nonneg hx0]
    linarith
  have h := Real.sin_bound habs
  rw [abs_of_nonneg hx0] at h
  have h2 := abs_le.1 h
  have hx3 : x ^ 3 ≤ u ^ 3 := pow_le_pow_left₀ hx0 hu 3
  have hx3l : l ^ 3 ≤ x ^ 3 := pow_le_pow_left₀ h0 hl 3
  have hx4 : x ^ 4 ≤ u ^ 4 := pow_le_pow_left₀ hx0 hu 4
  have hx40 : (0 : ℝ) ≤ x ^ 4 := by positivity
  constructor <;> nlinarith [h2.1, h2.2]

theorem cos_bounds_of_interval (x l u a b : ℝ) (h0 : 0 ≤ l) (hl : l ≤ x) (hu : x ≤ u)
    (h1 : u ≤ 1) (hlo : a ≤ 1 - u ^ 2 / 2 - u ^ 4 * (5 / 96))
    (hhi : 1 - l ^ 2 / 2 + u ^ 4 * (5 / 96) ≤ b) :
    a ≤ Real.cos x ∧ Real.cos x ≤ b := by
  have hx0 : 0 ≤ x := le_trans h0 hl
  have habs : |x| ≤ 1 := by
    rw [abs_of_nonneg hx0]
    linarith
  have h := Real.cos_bound habs
  rw [abs_of_nonneg hx0] at h
  have h2 := abs_le.1 h
  have hx2 : x ^ 2 ≤ u ^ 2 := pow_le_pow_left₀ hx0 hu 2
  have hx2l : l ^ 2 ≤ x ^ 2 := pow_le_pow_left₀ h0 hl 2
  have hx4 : x ^ 4 ≤ u ^ 4 := pow_le_pow_left₀ hx0 hu 4
  have hx40 : (0 : ℝ) ≤ x ^ 4 := by positivity
  constructor <;> nlinarith [h2.1, h2.2]

theorem s36_bounds : 0.0871 ≤ Real.sin (π / 36) ∧ Real.sin (π / 36) ≤ 0.0872 := by
  have h1 := Real.pi_gt_d6
  have h2 := Real.pi_lt_d6
  exact sin_bounds_of_interval (π / 36) 0.0872664 0.0872665 0.0871 0.0872
    (by norm_num) (by linarith) (by linarith) (by norm_num) (by norm_num) (by norm_num)

theorem c36_bounds : 0.99618 ≤ Real.cos (π / 36) ∧ Real.cos (π / 36) ≤ 0.9962 := by
  have h1 := Real.pi_gt_d6
  have h2 := Real.pi_lt_d6
  exact cos_bounds_of_interval (π / 36) 0.0872664 0.0872665 0.99618 0.9962
    (by norm_num) (by linarith) (by linarith) (by norm_num) (by norm_num) (by norm_num)

theorem s18_bounds : 0.1735 ≤ Real.sin (π / 18) ∧ Real.sin (π / 18) ≤ 0.1737 := by
  have h1 := Real.pi_gt_d6
  have h2 := Real.pi_lt_d6
  exact sin_bounds_of_interval (π / 18) 0.1745328 0.174533 0.1735 0.1737
    (by norm_num) (by linarith) (by linarith) (by norm_num) (by norm_num) (by norm_num)

theorem c18_bounds : 0.9847 ≤ Real.cos (π / 18) ∧ Real.cos (π / 18) ≤ 0.9849 := by
  have h1 := Real.pi_gt_d6
  have h2 := Real.pi_lt_d6
  exact cos_bounds_of_interval (π / 18) 0.1745328 0.174533 0.9847 0.9849
    (by norm_num) (by linarith) (by linarith) (by norm_num) (by norm_num) (by norm_num)

theorem s9_bounds : 0.3412 ≤ Real.sin (π / 9) ∧ Real.sin (π / 9) ≤ 0.3428 := by
  have h1 := Real.pi_gt_d6
  have h2 := Real.pi_lt_d6
  exact sin_bounds_of_interval (π / 9) 0.3490657 0.349066 0.3412 0.3428
    (by norm_num) (by linarith) (by linarith) (by norm_num) (by norm_num) (by norm_num)

theorem c9_bounds : 0.9383 ≤ Real.cos (π / 9) ∧ Real.cos (π / 9) ≤ 0.9399 := by
  have h1 := Real.pi_gt_d6
  have h2 := Real.pi_lt_d6
  exact cos_bounds_of_interval (π / 9) 0.3490657 0.349066 0.9383 0.9399
    (by norm_num) (by linarith) (by linarith) (by norm_num) (by norm_num) (by norm_num)

theorem s2_9_bounds : 0.629 ≤ Real.sin (2 * π / 9) ∧ Real.sin (2 * π / 9) ≤ 0.6538 := by
  have h1 := Real.pi_gt_d6
  have h2 := Real.pi_lt_d6
  exact sin_bounds_of_interval (2 * π / 9) 0.6981315 0.6981318 0.629 0.6538
    (by norm_num) (by linarith) (by linarith) (by norm_num) (by norm_num) (by norm_num)

theorem c2_9_bounds : 0.7439 ≤ Real.cos (2 * π / 9) ∧ Real.cos (2 * π / 9) ≤ 0.7687 := by
  have h1 := Real.pi_gt_d6
  have h2 := Real.pi_lt_d6
  exact cos_bounds_of_interval (2 * π / 9) 0.6981315 0.6981318 0.7439 0.7687
    (by norm_num) (by linarith) (by linarith) (by norm_num) (by norm_num) (by norm_num)

theorem s5_18_bounds : 0.7316 ≤ Real.sin (5 * π / 18) ∧ Real.sin (5 * π / 18) ≤ 0.7922 := by
  have h1 := Real.pi_gt_d6
  have h2 := Real.pi_lt_d6
  exact sin_bounds_of_interval (5 * π / 18) 0.8726644 0.8726648 0.7316 0.7922
    (by norm_num) (by linarith) (by linarith) (by norm_num) (by norm_num) (by norm_num)

theorem c5_18_bounds : 0.589 ≤ Real.cos (5 * π / 18) ∧ Real.cos (5 * π / 18) ≤ 0.6495 := by
  have h1 := Real.pi_gt_d6
  have h2 := Real.pi_lt_d6
  exact cos_bounds_of_interval (5 * π / 18) 0.8726644 0.8726648 0.589 0.6495
    (by norm_num) (by linarith) (by linarith) (by norm_num) (by norm_num) (by norm_num)

theorem cos_pi_add (x : ℝ) : Real.cos (π + x) = -Real.cos x := by
  rw [Real.cos_add, Real.cos_pi, Real.sin_pi]
  ring

theorem sin_pi_add (x : ℝ) : Real.sin (π + x) = -Real.sin x := by
  rw [Real.sin_add, Real.cos_pi, Real.sin_pi]
  ring

theorem mul_bounds (x y a b c d : ℝ) (h1 : a ≤ x) (h2 : x ≤ b) (h3 : c ≤ y) (h4 : y ≤ d)
    (ha : 0 ≤ a) (hc : 0 ≤ c) : a * c ≤ x * y ∧ x * y ≤ b * d :=
  ⟨mul_le_mul h1 h3 hc (le_trans ha h1),
   mul_le_mul h2 h4 (le_trans hc h3) (le_trans (le_trans ha h1) h2)⟩

theorem sFactor_512 : sFactor 512 = 8 := by
  norm_num [sFactor]

theorem headPoly_512 : headPoly 512 = ellipseVerts 280 64 52 40 (-5) := by
  rw [headPoly, sFactor_512]
  norm_num

theorem headPoly_512_verts :
    headPoly 512 = (List.range 36).map fun i => (hvX i, hvY i) := by
  rw [headPoly_512]
  unfold ellipseVerts hvX hvY
  refine List.map_congr_left fun i _ => ?_
  rw [show (-5 : ℝ) * π / 180 = -(π / 36) by ring, Real.cos_neg, Real.sin_neg]
  simp only [Prod.mk.injEq]
  constructor <;> ring

theorem hvY_le18 (i : ℕ) (h : i ≤ 18) : 28.5 < hvY i := by
  have hs36 := s36_bounds
  have hc36 := c36_bounds
  have hθ0 : 0 ≤ 2 * π * (i : ℝ) / 36 := by positivity
  have hθπ : 2 * π * (i : ℝ) / 36 ≤ π := by
    have hi : (i : ℝ) ≤ 18 := by exact_mod_cast h
    nlinarith [mul_nonneg Real.pi_pos.le (by linarith : (0 : ℝ) ≤ 18 - (i : ℝ))]
  have hsin : 0 ≤ Real.sin (2 * π * (i : ℝ) / 36) :=
    Real.sin_nonneg_of_nonneg_of_le_pi hθ0 hθπ
  have hcos : Real.cos (2 * π * (i : ℝ) / 36) ≤ 1 := Real.cos_le_one _
  have hp : Real.cos (2 * π * (i : ℝ) / 36) * Real.sin (π / 36) ≤ 0.0872 := by
    nlinarith [hs36.1, hs36.2]
  have hq : 0 ≤ Real.sin (2 * π * (i : ℝ) / 36) * Real.cos (π / 36) :=
    mul_nonneg hsin (by linarith [hc36.1])
  unfold hvY
  nlinarith [hp, hq]

theorem hvY19 : 28.5 < hvY 19 := by
  have hs36 := s36_bounds
  have hc36 := c36_bounds
  have hs18 := s18_bounds
  have hc18 := c18_bounds
  unfold hvY
  push_cast
  rw [show 2 * π * (19 : ℝ) / 36 = π + π / 18 by ring, cos_pi_add, sin_pi_add]
  have hp := mul_bounds (Real.sin (π / 18)) (Real.cos (π / 36)) 0.1735 0.1737 0.99618 0.9962
    hs18.1 hs18.2 hc36.1 hc36.2 (by norm_num) (by norm_num)
  have hq : 0 ≤ Real.cos (π / 18) * Real.sin (π / 36) :=
    mul_nonneg (by linarith [hc18.1]) (by linarith [hs36.1])
  nlinarith [hp.1, hp.2, hq]

theorem hvY20 : 28.5 < hvY 20 := by
  have hs36 := s36_bounds
  have hc36 := c36_bounds
  have hs9 := s9_bounds
  have hc9 := c9_bounds
  unfold hvY
  push_cast
  rw [show 2 * π * (20 : ℝ) / 36 = π + π / 9 by ring, cos_pi_add, sin_pi_add]
  have hp := mul_bounds (Real.sin (π / 9)) (Real.cos (π / 36)) 0.3412 0.3428 0.99618 0.9962
    hs9.1 hs9.2 hc36.1 hc36.2 (by norm_num) (by norm_num)
  have hq : 0 ≤ Real.cos (π / 9) * Real.sin (π / 36) :=
    mul_nonneg (by linarith [hc9.1]) (by linarith [hs36.1])
  nlinarith [hp.1, hp.2, hq]

theorem hvY21 : 28.5 < hvY 21 := by
  have hs36 := s36_bounds
  have hc36 := c36_bounds
  have hsq := sqrt3_bounds
  unfold hvY
  push_cast
  rw [show 2 * π * (21 : ℝ) / 36 = π + π / 6 by ring, cos_pi_add, sin_pi_add,
    Real.cos_pi_div_six, Real.sin_pi_div_six]
  have hq : 0 ≤ Real.sqrt 3 * Real.sin (π / 36) :=
    mul_nonneg (Real.sqrt_nonneg 3) (by linarith [hs36.1])
  nlinarith [hq, hc36.2]

theorem hvY22 : 28.5 < hvY 22 := by
  have hs36 := s36_bounds
  have hc36 := c36_bounds
  have hs := s2_9_bounds
  have hc := c2_9_bounds
  unfold hvY
  push_cast
  rw [show 2 * π * (22 : ℝ) / 36 = π + 2 * π / 9 by ring, cos_pi_add, sin_pi_add]
  have hp := mul_bounds (Real.sin (2 * π / 9)) (Real.cos (π / 36)) 0.629 0.6538 0.99618 0.9962
    hs.1 hs.2 hc36.1 hc36.2 (by norm_num) (by norm_num)
  have hq : 0 ≤ Real.cos (2 * π / 9) * Real.sin (π / 36) :=
    mul_nonneg (by linarith [hc.1]) (by linarith [hs36.1])
  nlinarith [hp.1, hp.2, hq]

theorem hvY23 : 28.5 < hvY 23 := by
  have hs36 := s36_bounds
  have hc36 := c36_bounds
  have hs := s5_18_bounds
  have hc := c5_18_bounds
  unfold hvY
  push_cast
  rw [show 2 * π * (23 : ℝ) / 36 = π + 5 * π / 18 by ring, cos_pi_add, sin_pi_add]
  have hp := mul_bounds (Real.sin (5 * π / 18)) (Real.cos (π / 36)) 0.7316 0.7922 0.99618 0.9962
    hs.1 hs.2 hc36.1 hc36.2 (by norm_num) (by norm_num)
  have hq : 0 ≤ Real.cos (5 * π / 18) * Real.sin (π / 36) :=
    mul_nonneg (by linarith [hc.1]) (by linarith [hs36.1])
  nlinarith [hp.1, hp.2, hq]

theorem hvY24 : 28.5 < hvY 24 := by
  have hs36 := s36_bounds
  have hc36 := c36_bounds
  have hsq := sqrt3_bounds
  unfold hvY
  push_cast
  rw [show 2 * π * (24 : ℝ) / 36 = π + π / 3 by ring, cos_pi_add, sin_pi_add,
    Real.cos_pi_div_three, Real.sin_pi_div_three]
  have hp := mul_bounds (Real.sqrt 3) (Real.cos (π / 36)) 1.732 1.7321 0.99618 0.9962
    hsq.1 hsq.2 hc36.1 hc36.2 (by norm_num) (by norm_num)
  have hq : 0 ≤ Real.sin (π / 36) := by linarith [hs36.1]
  nlinarith [hp.1, hp.2, hq]

theorem hvY25 : hvY 25 ≤ 28.5 := by
  have hs36 := s36_bounds
  have hc36 := c36_bounds
  have hs9 := s9_bounds
  have hc9 := c9_bounds
  unfold hvY
  push_cast
  rw [show 2 * π * (25 : ℝ) / 36 = π + 7 * π / 18 by ring, cos_pi_add, sin_pi_add]
  rw [show (7 : ℝ) * π / 18 = π / 2 - π / 9 by ring, Real.cos_pi_div_two_sub,
    Real.sin_pi_div_two_sub]
  have hp := mul_bounds (Real.sin (π / 9)) (Real.sin (π / 36)) 0.3412 0.3428 0.0871 0.0872
    hs9.1 hs9.2 hs36.1 hs36.2 (by norm_num) (by norm_num)
  have hq := mul_bounds (Real.cos (π / 9)) (Real.cos (π / 36)) 0.9383 0.9399 0.99618 0.9962
    hc9.1 hc9.2 hc36.1 hc36.2 (by norm_num) (by norm_num)
  nlinarith [hp.1, hp.2, hq.1, hq.2]

theorem hvY26 : hvY 26 ≤ 28.5 := by
  have hs36 := s36_bounds
  have hc36 := c36_bounds
  have hs18 := s18_bounds
  have hc18 := c18_bounds
  unfold hvY
  push_cast
  rw [show 2 * π * (26 : ℝ) / 36 = π + 4 * π / 9 by ring, cos_pi_add, sin_pi_add]
  rw [show (4 : ℝ) * π / 9 = π / 2 - π / 18 by ring, Real.cos_pi_div_two_sub,
    Real.sin_pi_div_two_sub]
  have hp := mul_bounds (Real.sin (π / 18)) (Real.sin (π / 36)) 0.1735 0.1737 0.0871 0.0872
    hs18.1 hs18.2 hs36.1 hs36.2 (by norm_num) (by norm_num)
  have hq := mul_bounds (Real.cos (π / 18)) (Real.cos (π / 36)) 0.9847 0.9849 0.99618 0.9962
    hc18.1 hc18.2 hc36.1 hc36.2 (by norm_num) (by norm_num)
  nlinarith [hp.1, hp.2, hq.1, hq.2]

theorem hvY27 : hvY 27 ≤ 28.5 := by
  have hc36 := c36_bounds
  have hs36 := s36_bounds
  unfold hvY
  push_cast
  rw [show 2 * π * (27 : ℝ) / 36 = π + π / 2 by ring, cos_pi_add, sin_pi_add,
    Real.cos_pi_div_two, Real.sin_pi_div_two]
  nlinarith [hc36.1, hs36.1]

theorem hvY28 : hvY 28 ≤ 28.5 := by
  have hs36 := s36_bounds
  have hc36 := c36_bounds
  have hs18 := s18_bounds
  have hc18 := c18_bounds
  unfold hvY
  push_cast
  rw [show 2 * π * (28 : ℝ) / 36 = 2 * π - 4 * π / 9 by ring, Real.cos_two_pi_sub,
    Real.sin_two_pi_sub]
  rw [show (4 : ℝ) * π / 9 = π / 2 - π / 18 by ring, Real.cos_pi_div_two_sub,
    Real.sin_pi_div_two_sub]
  have hp : 0 ≤ Real.sin (π / 18) * Real.sin (π / 36) :=
    mul_nonneg (by linarith [hs18.1]) (by linarith [hs36.1])
  have hq := mul_bounds (Real.cos (π / 18)) (Real.cos (π / 36)) 0.9847 0.9849 0.99618 0.9962
    hc18.1 hc18.2 hc36.1 hc36.2 (by norm_num) (by norm_num)
  nlinarith [hp, hq.1, hq.2]

theorem hvY29 : hvY 29 ≤ 28.5 := by
  have hs36 := s36_bounds
  have hc36 := c36_bounds
  have hs9 := s9_bounds
  have hc9 := c9_bounds
  unfold hvY
  push_cast
  rw [show 2 * π * (29 : ℝ) / 36 = 2 * π - 7 * π / 18 by ring, Real.cos_two_pi_sub,
    Real.sin_two_pi_sub]
  rw [show (7 : ℝ) * π / 18 = π / 2 - π / 9 by ring, Real.cos_pi_div_two_sub,
    Real.sin_pi_div_two_sub]
  have hp : 0 ≤ Real.sin (π / 9) * Real.sin (π / 36) :=
    mul_nonneg (by linarith [hs9.1]) (by linarith [hs36.1])
  have hq := mul_bounds (Real.cos (π / 9)) (Real.cos (π / 36)) 0.9383 0.9399 0.99618 0.9962
    hc9.1 hc9.2 hc36.1 hc36.2 (by norm_num) (by norm_num)
  nlinarith [hp, hq.1, hq.2]

theorem hvY30 : hvY 30 ≤ 28.5 := by
  have hs36 := s36_bounds
  have hc36 := c36_bounds
  have hsq := sqrt3_bounds
  unfold hvY
  push_cast
  rw [show 2 * π * (30 : ℝ) / 36 = 2 * π - π / 3 by ring, Real.cos_two_pi_sub,
    Real.sin_two_pi_sub, Real.cos_pi_div_three, Real.sin_pi_div_three]
  have hp := mul_bounds (Real.sqrt 3) (Real.cos (π / 36)) 1.732 1.7321 0.99618 0.9962
    hsq.1 hsq.2 hc36.1 hc36.2 (by norm_num) (by norm_num)
  nlinarith [hp.1, hp.2, hs36.1]

theorem hvY31 : 28.5 < hvY 31 := by
  have hs36 := s36_bounds
  have hc36 := c36_bounds
  have hs := s5_18_bounds
  have hc := c5_18_bounds
  unfold hvY
  push_cast
  rw [show 2 * π * (31 : ℝ) / 36 = 2 * π - 5 * π / 18 by ring, Real.cos_two_pi_sub,
    Real.sin_two_pi_sub]
  have hp := mul_bounds (Real.cos (5 * π / 18)) (Real.sin (π / 36)) 0.589 0.6495 0.0871 0.0872
    hc.1 hc.2 hs36.1 hs36.2 (by norm_num) (by norm_num)
  have hq := mul_bounds (Real.sin (5 * π / 18)) (Real.cos (π / 36)) 0.7316 0.7922 0.99618 0.9962
    hs.1 hs.2 hc36.1 hc36.2 (by norm_num) (by norm_num)
  nlinarith [hp.1, hp.2, hq.1, hq.2]

theorem hvY32 : 28.5 < hvY 32 := by
  have hs36 := s36_bounds
  have hc36 := c36_bounds
  have hs := s2_9_bounds
  have hc := c2_9_bounds
  unfold hvY
  push_cast
  rw [show 2 * π * (32 : ℝ) / 36 = 2 * π - 2 * π / 9 by ring, Real.cos_two_pi_sub,
    Real.sin_two_pi_sub]
  have hp := mul_bounds (Real.cos (2 * π / 9)) (Real.sin (π / 36)) 0.7439 0.7687 0.0871 0.0872
    hc.1 hc.2 hs36.1 hs36.2 (by norm_num) (by norm_num)
  have hq := mul_bounds (Real.sin (2 * π / 9)) (Real.cos (π / 36)) 0.629 0.6538 0.99618 0.9962
    hs.1 hs.2 hc36.1 hc36.2 (by norm_num) (by norm_num)
  nlinarith [hp.1, hp.2, hq.1, hq.2]

theorem hvY33 : 28.5 < hvY 33 := by
  have hs36 := s36_bounds
  have hc36 := c36_bounds
  have hsq := sqrt3_bounds
  unfold hvY
  push_cast
  rw [show 2 * π * (33 : ℝ) / 36 = 2 * π - π / 6 by ring, Real.cos_two_pi_sub,
    Real.sin_two_pi_sub, Real.cos_pi_div_six, Real.sin_pi_div_six]
  have hp := mul_bounds (Real.sqrt 3) (Real.sin (π / 36)) 1.732 1.7321 0.0871 0.0872
    hsq.1 hsq.2 hs36.1 hs36.2 (by norm_num) (by norm_num)
  nlinarith [hp.1, hp.2, hc36.2, hc36.1]

theorem hvY34 : 28.5 < hvY 34 := by
  have hs36 := s36_bounds
  have hc36 := c36_bounds
  have hs9 := s9_bounds
  have hc9 := c9_bounds
  unfold hvY
  push_cast
  rw [show 2 * π * (34 : ℝ) / 36 = 2 * π - π / 9 by ring, Real.cos_two_pi_sub,
    Real.sin_two_pi_sub]
  have hp := mul_bounds (Real.cos (π / 9)) (Real.sin (π / 36)) 0.9383 0.9399 0.0871 0.0872
    hc9.1 hc9.2 hs36.1 hs36.2 (by norm_num) (by norm_num)
  have hq := mul_bounds (Real.sin (π / 9)) (Real.cos (π / 36)) 0.3412 0.3428 0.99618 0.9962
    hs9.1 hs9.2 hc36.1 hc36.2 (by norm_num) (by norm_num)
  nlinarith [hp.1, hp.2, hq.1, hq.2]

theorem hvY35 : 28.5 < hvY 35 := by
  have hs36 := s36_bounds
  have hc36 := c36_bounds
  have hs18 := s18_bounds
  have hc18 := c18_bounds
  unfold hvY
  push_cast
  rw [show 2 * π * (35 : ℝ) / 36 = 2 * π - π / 18 by ring, Real.cos_two_pi_sub,
    Real.sin_two_pi_sub]
  have hp := mul_bounds (Real.cos (π / 18)) (Real.sin (π / 36)) 0.9847 0.9849 0.0871 0.0872
    hc18.1 hc18.2 hs36.1 hs36.2 (by norm_num) (by norm_num)
  have hq := mul_bounds (Real.sin (π / 18)) (Real.cos (π / 36)) 0.1735 0.1737 0.99618 0.9962
    hs18.1 hs18.2 hc36.1 hc36.2 (by norm_num) (by norm_num)
  nlinarith [hp.1, hp.2, hq.1, hq.2]

theorem hvX24 : hvX 24 ≤ 280.5 := by
  have hs36 := s36_bounds
  have hc36 := c36_bounds
  have hsq := sqrt3_bounds
  unfold hvX
  push_cast
  rw [show 2 * π * (24 : ℝ) / 36 = π + π / 3 by ring, cos_pi_add, sin_pi_add,
    Real.cos_pi_div_three, Real.sin_pi_div_three]
  have hp : 0 ≤ Real.sqrt 3 * Real.sin (π / 36) :=
    mul_nonneg (Real.sqrt_nonneg 3) (by linarith [hs36.1])
  nlinarith [hp, hc36.1]

theorem hvX25 : hvX 25 ≤ 280.5 := by
  have hs36 := s36_bounds
  have hc36 := c36_bounds
  have hs9 := s9_bounds
  have hc9 := c9_bounds
  unfold hvX
  push_cast
  rw [show 2 * π * (25 : ℝ) / 36 = π + 7 * π / 18 by ring, cos_pi_add, sin_pi_add]
  rw [show (7 : ℝ) * π / 18 = π / 2 - π / 9 by ring, Real.cos_pi_div_two_sub,
    Real.sin_pi_div_two_sub]
  have hp : 0 ≤ Real.sin (π / 9) * Real.cos (π / 36) :=
    mul_nonneg (by linarith [hs9.1]) (by linarith [hc36.1])
  have hq : 0 ≤ Real.cos (π / 9) * Real.sin (π / 36) :=
    mul_nonneg (by linarith [hc9.1]) (by linarith [hs36.1])
  nlinarith [hp, hq]

theorem hvX30 : 280.5 < hvX 30 := by
  have hs36 := s36_bounds
  have hc36 := c36_bounds
  have hsq := sqrt3_bounds
  unfold hvX
  push_cast
  rw [show 2 * π * (30 : ℝ) / 36 = 2 * π - π / 3 by ring, Real.cos_two_pi_sub,
    Real.sin_two_pi_sub, Real.cos_pi_div_three, Real.sin_pi_div_three]
  have hp := mul_bounds (Real.sqrt 3) (Real.sin (π / 36)) 1.732 1.7321 0.0871 0.0872
    hsq.1 hsq.2 hs36.1 hs36.2 (by norm_num) (by norm_num)
  nlinarith [hp.1, hp.2, hc36.1]

theorem hvX31 : 280.5 < hvX 31 := by
  have hs36 := s36_bounds
  have hc36 := c36_bounds
  have hs := s5_18_bounds
  have hc := c5_18_bounds
  unfold hvX
  push_cast
  rw [show 2 * π * (31 : ℝ) / 36 = 2 * π - 5 * π / 18 by ring, Real.cos_two_pi_sub,
    Real.sin_two_pi_sub]
  have hp := mul_bounds (Real.cos (5 * π / 18)) (Real.cos (π / 36)) 0.589 0.6495 0.99618 0.9962
    hc.1 hc.2 hc36.1 hc36.2 (by norm_num) (by norm_num)
  have hq := mul_bounds (Real.sin (5 * π / 18)) (Real.sin (π / 36)) 0.7316 0.7922 0.0871 0.0872
    hs.1 hs.2 hs36.1 hs36.2 (by norm_num) (by norm_num)
  nlinarith [hp.1, hp.2, hq.1, hq.2]

open Classical in
set_option maxHeartbeats 1000000 in
theorem headFold : ((((hvX 0, hvY 0), (hvX 1, hvY 1)) :: ((hvX 1, hvY 1), (hvX 2, hvY 2)) :: ((hvX 2, hvY 2), (hvX 3, hvY 3)) :: ((hvX 3, hvY 3), (hvX 4, hvY 4)) :: ((hvX 4, hvY 4), (hvX 5, hvY 5)) :: ((hvX 5, hvY 5), (hvX 6, hvY 6)) :: ((hvX 6, hvY 6), (hvX 7, hvY 7)) :: ((hvX 7, hvY 7), (hvX 8, hvY 8)) :: ((hvX 8, hvY 8), (hvX 9, hvY 9)) :: ((hvX 9, hvY 9), (hvX 10, hvY 10)) :: ((hvX 10, hvY 10), (hvX 11, hvY 11)) :: ((hvX 11, hvY 11), (hvX 12, hvY 12)) :: ((hvX 12, hvY 12), (hvX 13, hvY 13)) :: ((hvX 13, hvY 13), (hvX 14, hvY 14)) :: ((hvX 14, hvY 14), (hvX 15, hvY 15)) :: ((hvX 15, hvY 15), (hvX 16, hvY 16)) :: ((hvX 16, hvY 16), (hvX 17, hvY 17)) :: ((hvX 17, hvY 17), (hvX 18, hvY 18)) :: ((hvX 18, hvY 18), (hvX 19, hvY 19)) :: ((hvX 19, hvY 19), (hvX 20, hvY 20)) :: ((hvX 20, hvY 20), (hvX 21, hvY 21)) :: ((hvX 21, hvY 21), (hvX 22, hvY 22)) :: ((hvX 22, hvY 22), (hvX 23, hvY 23)) :: ((hvX 23, hvY 23), (hvX 24, hvY 24)) :: ((hvX 24, hvY 24), (hvX 25, hvY 25)) :: ((hvX 25, hvY 25), (hvX 26, hvY 26)) :: ((hvX 26, hvY 26), (hvX 27, hvY 27)) :: ((hvX 27, hvY 27), (hvX 28, hvY 28)) :: ((hvX 28, hvY 28), (hvX 29, hvY 29)) :: ((hvX 29, hvY 29), (hvX 30, hvY 30)) :: ((hvX 30, hvY 30), (hvX 31, hvY 31)) :: ((hvX 31, hvY 31), (hvX 32, hvY 32)) :: ((hvX 32, hvY 32), (hvX 33, hvY 33)) :: ((hvX 33, hvY 33), (hvX 34, hvY 34)) :: ((hvX 34, hvY 34), (hvX 35, hvY 35)) :: ((hvX 35, hvY 35), (hvX 0, hvY 0)) :: ([] : List ((ℝ × ℝ) × (ℝ × ℝ)))).foldr
    (fun e n => if crosses e (280.5, 28.5) then n + 1 else n) 0) = 1 := by
  simp only [List.foldr_cons, List.foldr_nil]
  rw [if_neg (not_crosses_above (hvX 0) (hvY 0) (hvX 1) (hvY 1) 280.5 28.5 (hvY_le18 0 (by norm_num)) (hvY_le18 1 (by norm_num)))]
  rw [if_neg (not_crosses_above (hvX 1) (hvY 1) (hvX 2) (hvY 2) 280.5 28.5 (hvY_le18 1 (by norm_num)) (hvY_le18 2 (by norm_num)))]
  rw [if_neg (not_crosses_above (hvX 2) (hvY 2) (hvX 3) (hvY 3) 280.5 28.5 (hvY_le18 2 (by norm_num)) (hvY_le18 3 (by norm_num)))]
  rw [if_neg (not_crosses_above (hvX 3) (hvY 3) (hvX 4) (hvY 4) 280.5 28.5 (hvY_le18 3 (by norm_num)) (hvY_le18 4 (by norm_num)))]
  rw [if_neg (not_crosses_above (hvX 4) (hvY 4) (hvX 5) (hvY 5) 280.5 28.5 (hvY_le18 4 (by norm_num)) (hvY_le18 5 (by norm_num)))]
  rw [if_neg (not_crosses_above (hvX 5) (hvY 5) (hvX 6) (hvY 6) 280.5 28.5 (hvY_le18 5 (by norm_num)) (hvY_le18 6 (by norm_num)))]
  rw [if_neg (not_crosses_above (hvX 6) (hvY 6) (hvX 7) (hvY 7) 280.5 28.5 (hvY_le18 6 (by norm_num)) (hvY_le18 7 (by norm_num)))]
  rw [if_neg (not_crosses_above (hvX 7) (hvY 7) (hvX 8) (hvY 8) 280.5 28.5 (hvY_le18 7 (by norm_num)) (hvY_le18 8 (by norm_num)))]
  rw [if_neg (not_crosses_above (hvX 8) (hvY 8) (hvX 9) (hvY 9) 280.5 28.5 (hvY_le18 8 (by norm_num)) (hvY_le18 9 (by norm_num)))]
  rw [if_neg (not_crosses_above (hvX 9) (hvY 9) (hvX 10) (hvY 10) 280.5 28.5 (hvY_le18 9 (by norm_num)) (hvY_le18 10 (by norm_num)))]
  rw [if_neg (not_crosses_above (hvX 10) (hvY 10) (hvX 11) (hvY 11) 280.5 28.5 (hvY_le18 10 (by norm_num)) (hvY_le18 11 (by norm_num)))]
  rw [if_neg (not_crosses_above (hvX 11) (hvY 11) (hvX 12) (hvY 12) 280.5 28.5 (hvY_le18 11 (by norm_num)) (hvY_le18 12 (by norm_num)))]
  rw [if_neg (not_crosses_above (hvX 12) (hvY 12) (hvX 13) (hvY 13) 280.5 28.5 (hvY_le18 12 (by norm_num)) (hvY_le18 13 (by norm_num)))]
  rw [if_neg (not_crosses_above (hvX 13) (hvY 13) (hvX 14) (hvY 14) 280.5 28.5 (hvY_le18 13 (by norm_num)) (hvY_le18 14 (by norm_num)))]
  rw [if_neg (not_crosses_above (hvX 14) (hvY 14) (hvX 15) (hvY 15) 280.5 28.5 (hvY_le18 14 (by norm_num)) (hvY_le18 15 (by norm_num)))]
  rw [if_neg (not_crosses_above (hvX 15) (hvY 15) (hvX 16) (hvY 16) 280.5 28.5 (hvY_le18 15 (by norm_num)) (hvY_le18 16 (by norm_num)))]
  rw [if_neg (not_crosses_above (hvX 16) (hvY 16) (hvX 17) (hvY 17) 280.5 28.5 (hvY_le18 16 (by norm_num)) (hvY_le18 17 (by norm_num)))]
  rw [if_neg (not_crosses_above (hvX 17) (hvY 17) (hvX 18) (hvY 18) 280.5 28.5 (hvY_le18 17 (by norm_num)) (hvY_le18 18 (by norm_num)))]
  rw [if_neg (not_crosses_above (hvX 18) (hvY 18) (hvX 19) (hvY 19) 280.5 28.5 (hvY_le18 18 (by norm_num)) hvY19)]
  rw [if_neg (not_crosses_above (hvX 19) (hvY 19) (hvX 20) (hvY 20) 280.5 28.5 hvY19 hvY20)]
  rw [if_neg (not_crosses_above (hvX 20) (hvY 20) (hvX 21) (hvY 21) 280.5 28.5 hvY20 hvY21)]
  rw [if_neg (not_crosses_above (hvX 21) (hvY 21) (hvX 22) (hvY 22) 280.5 28.5 hvY21 hvY22)]
  rw [if_neg (not_crosses_above (hvX 22) (hvY 22) (hvX 23) (hvY 23) 280.5 28.5 hvY22 hvY23)]
  rw [if_neg (not_crosses_above (hvX 23) (hvY 23) (hvX 24) (hvY 24) 280.5 28.5 hvY23 hvY24)]
  rw [if_neg (not_crosses_xle (hvX 24) (hvY 24) (hvX 25) (hvY 25) 280.5 28.5 hvX24 hvX25)]
  rw [if_neg (not_crosses_below (hvX 25) (hvY 25) (hvX 26) (hvY 26) 280.5 28.5 hvY25 hvY26)]
  rw [if_neg (not_crosses_below (hvX 26) (hvY 26) (hvX 27) (hvY 27) 280.5 28.5 hvY26 hvY27)]
  rw [if_neg (not_crosses_below (hvX 27) (hvY 27) (hvX 28) (hvY 28) 280.5 28.5 hvY27 hvY28)]
  rw [if_neg (not_crosses_below (hvX 28) (hvY 28) (hvX 29) (hvY 29) 280.5 28.5 hvY28 hvY29)]
  rw [if_neg (not_crosses_below (hvX 29) (hvY 29) (hvX 30) (hvY 30) 280.5 28.5 hvY29 hvY30)]
  rw [if_pos (crosses_of_lt (hvX 30) (hvY 30) (hvX 31) (hvY 31) 280.5 28.5 (Or.inl ⟨hvY30, hvY31⟩) hvX30 hvX31)]
  rw [if_neg (not_crosses_above (hvX 31) (hvY 31) (hvX 32) (hvY 32) 280.5 28.5 hvY31 hvY32)]
  rw [if_neg (not_crosses_above (hvX 32) (hvY 32) (hvX 33) (hvY 33) 280.5 28.5 hvY32 hvY33)]
  rw [if_neg (not_crosses_above (hvX 33) (hvY 33) (hvX 34) (hvY 34) 280.5 28.5 hvY33 hvY34)]
  rw [if_neg (not_crosses_above (hvX 34) (hvY 34) (hvX 35) (hvY 35) 280.5 28.5 hvY34 hvY35)]
  rw [if_neg (not_crosses_above (hvX 35) (hvY 35) (hvX 0) (hvY 0) 280.5 28.5 hvY35 (hvY_le18 0 (by norm_num)))]

set_option maxHeartbeats 1000000 in
theorem headPoly_covers_pt : covers (Shape.poly (headPoly 512)) (280.5, 28.5) := by
  show Odd (crossCount (headPoly 512) (280.5, 28.5))
  rw [headPoly_512_verts]
  rw [show List.range 36 = (0 : ℕ) :: (1 : ℕ) :: (2 : ℕ) :: (3 : ℕ) :: (4 : ℕ) :: (5 : ℕ) :: (6 : ℕ) :: (7 : ℕ) :: (8 : ℕ) :: (9 : ℕ) :: (10 : ℕ) :: (11 : ℕ) :: (12 : ℕ) :: (13 : ℕ) :: (14 : ℕ) :: (15 : ℕ) :: (16 : ℕ) :: (17 : ℕ) :: (18 : ℕ) :: (19 : ℕ) :: (20 : ℕ) :: (21 : ℕ) :: (22 : ℕ) :: (23 : ℕ) :: (24 : ℕ) :: (25 : ℕ) :: (26 : ℕ) :: (27 : ℕ) :: (28 : ℕ) :: (29 : ℕ) :: (30 : ℕ) :: (31 : ℕ) :: (32 : ℕ) :: (33 : ℕ) :: (34 : ℕ) :: (35 : ℕ) :: [] from rfl]
  simp only [List.map_cons, List.map_nil]
  unfold crossCount
  rw [show polyEdges ((hvX 0, hvY 0) :: (hvX 1, hvY 1) :: (hvX 2, hvY 2) :: (hvX 3, hvY 3) :: (hvX 4, hvY 4) :: (hvX 5, hvY 5) :: (hvX 6, hvY 6) :: (hvX 7, hvY 7) :: (hvX 8, hvY 8) :: (hvX 9, hvY 9) :: (hvX 10, hvY 10) :: (hvX 11, hvY 11) :: (hvX 12, hvY 12) :: (hvX 13, hvY 13) :: (hvX 14, hvY 14) :: (hvX 15, hvY 15) :: (hvX 16, hvY 16) :: (hvX 17, hvY 17) :: (hvX 18, hvY 18) :: (hvX 19, hvY 19) :: (hvX 20, hvY 20) :: (hvX 21, hvY 21) :: (hvX 22, hvY 22) :: (hvX 23, hvY 23) :: (hvX 24, hvY 24) :: (hvX 25, hvY 25) :: (hvX 26, hvY 26) :: (hvX 27, hvY 27) :: (hvX 28, hvY 28) :: (hvX 29, hvY 29) :: (hvX 30, hvY 30) :: (hvX 31, hvY 31) :: (hvX 32, hvY 32) :: (hvX 33, hvY 33) :: (hvX 34, hvY 34) :: (hvX 35, hvY 35) :: ([] : List (ℝ × ℝ))) = ((hvX 0, hvY 0), (hvX 1, hvY 1)) :: ((hvX 1, hvY 1), (hvX 2, hvY 2)) :: ((hvX 2, hvY 2), (hvX 3, hvY 3)) :: ((hvX 3, hvY 3), (hvX 4, hvY 4)) :: ((hvX 4, hvY 4), (hvX 5, hvY 5)) :: ((hvX 5, hvY 5), (hvX 6, hvY 6)) :: ((hvX 6, hvY 6), (hvX 7, hvY 7)) :: ((hvX 7, hvY 7), (hvX 8, hvY 8)) :: ((hvX 8, hvY 8), (hvX 9, hvY 9)) :: ((hvX 9, hvY 9), (hvX 10, hvY 10)) :: ((hvX 10, hvY 10), (hvX 11, hvY 11)) :: ((hvX 11, hvY 11), (hvX 12, hvY 12)) :: ((hvX 12, hvY 12), (hvX 13, hvY 13)) :: ((hvX 13, hvY 13), (hvX 14, hvY 14)) :: ((hvX 14, hvY 14), (hvX 15, hvY 15)) :: ((hvX 15, hvY 15), (hvX 16, hvY 16)) :: ((hvX 16, hvY 16), (hvX 17, hvY 17)) :: ((hvX 17, hvY 17), (hvX 18, hvY 18)) :: ((hvX 18, hvY 18), (hvX 19, hvY 19)) :: ((hvX 19, hvY 19), (hvX 20, hvY 20)) :: ((hvX 20, hvY 20), (hvX 21, hvY 21)) :: ((hvX 21, hvY 21), (hvX 22, hvY 22)) :: ((hvX 22, hvY 22), (hvX 23, hvY 23)) :: ((hvX 23, hvY 23), (hvX 24, hvY 24)) :: ((hvX 24, hvY 24), (hvX 25, hvY 25)) :: ((hvX 25, hvY 25), (hvX 26, hvY 26)) :: ((hvX 26, hvY 26), (hvX 27, hvY 27)) :: ((hvX 27, hvY 27), (hvX 28, hvY 28)) :: ((hvX 28, hvY 28), (hvX 29, hvY 29)) :: ((hvX 29, hvY 29), (hvX 30, hvY 30)) :: ((hvX 30, hvY 30), (hvX 31, hvY 31)) :: ((hvX 31, hvY 31), (hvX 32, hvY 32)) :: ((hvX 32, hvY 32), (hvX 33, hvY 33)) :: ((hvX 33, hvY 33), (hvX 34, hvY 34)) :: ((hvX 34, hvY 34), (hvX 35, hvY 35)) :: ((hvX 35, hvY 35), (hvX 0, hvY 0)) :: ([] : List ((ℝ × ℝ) × (ℝ × ℝ))) from rfl]
  rw [headFold]
  decide

theorem drawOps_alpha_ne (size : ℕ) : ∀ o ∈ drawOps size, o.2.a ≠ 0 := by
  rintro ⟨sh, ink⟩ hmem
  show ink.a ≠ 0
  rw [drawOps] at hmem
  rcases List.mem_cons.1 hmem with h | h0
  · injection h with h1 h2
    rw [h2]
    decide
  rcases List.mem_append.1 h0 with h1 | hF
  · rcases List.mem_append.1 h1 with h2 | hE
    · rcases List.mem_append.1 h2 with h3 | hD
      · rcases List.mem_append.1 h3 with h4 | hC
        · rcases List.mem_append.1 h4 with hA | hB
          · obtain ⟨q, -, heq⟩ := List.mem_map.1 hA
            injection heq with g1 g2
            rw [← g2]
            decide
          · obtain ⟨pts, -, heq⟩ := List.mem_map.1 hB
            injection heq with g1 g2
            rw [← g2]
            decide
        · obtain ⟨pts, -, heq⟩ := List.mem_map.1 hC
          injection heq with g1 g2
          rw [← g2]
          decide
      · simp only [List.mem_cons, List.not_mem_nil, or_false] at hD
        rcases hD with h | h | h | h | h | h
        all_goals
          injection h with g1 g2
          rw [g2]
          decide
    · simp only [List.mem_cons, List.not_mem_nil, or_false] at hE
      rcases hE with h | h | h
      all_goals
        injection h with g1 g2
        rw [g2]
        decide
  · obtain ⟨i, -, heq⟩ := List.mem_map.1 hF
    injection heq with g1 g2
    rw [← g2]
    decide

theorem head_mem_drawOps (size : ℕ) :
    (Shape.poly (headPoly size), (⟨107, 66, 38, 255⟩ : Ink)) ∈ drawOps size := by
  rw [drawOps]
  refine List.mem_cons_of_mem _ ?_
  refine List.mem_append_left _ ?_
  refine List.mem_append_left _ ?_
  refine List.mem_append_right _ ?_
  exact List.mem_cons_self _ _

theorem padI_512 : padI 512 = 32 := by
  unfold padI sFactor
  rw [show (4 : ℝ) * (((512 : ℕ) : ℝ) / 64) = ((32 : ℤ) : ℝ) by norm_num]
  exact Int.floor_intCast 32

theorem radI_512 : radI 512 = 96 := by
  unfold radI sFactor
  rw [show (12 : ℝ) * (((512 : ℕ) : ℝ) / 64) = ((96 : ℤ) : ℝ) by norm_num]
  exact Int.floor_intCast 96

theorem bgShape_512 : (bgOp 512).1 = Shape.rrect 32 32 480 480 96 := by
  rw [bgOp]
  rw [padI_512, radI_512]
  norm_num

/-- Counterexample to C3 as stated: at size 512 the pixel (280, 28) — whose
center (280.5, 28.5) lies outside the background rounded rectangle (the
rectangle inset by `pad = int(4*512/64) = 32` with radius
`int(12*512/64) = 96`) — has nonzero alpha, because the head polygon is
drawn above the rounded rectangle's top edge. -/
theorem composer_outside_bg_alpha_cex :
    ¬ covers (bgOp 512).1 (280.5, 28.5) ∧
    ((draw_ball_python_j 512).px 280 28).a ≠ 0 := by
  constructor
  · rw [bgShape_512]
    intro hcov
    simp only [covers] at hcov
    norm_num at hcov
  · show (renderPt (drawOps 512) (((280 : ℕ) : ℝ) + 0.5, ((28 : ℕ) : ℝ) + 0.5)).a ≠ 0
    have hpt : ((((280 : ℕ) : ℝ) + 0.5, ((28 : ℕ) : ℝ) + 0.5) : ℝ × ℝ)
        = ((280.5 : ℝ), (28.5 : ℝ)) := by
      norm_num
    rw [hpt, renderPt]
    exact renderPt_foldl_alpha_ne (drawOps 512) (280.5, 28.5) ⟨0, 0, 0, 0⟩
      (drawOps_alpha_ne 512)
      (Or.inl ⟨(Shape.poly (headPoly 512), (⟨107, 66, 38, 255⟩ : Ink)),
        head_mem_drawOps 512, headPoly_covers_pt⟩)

end Julius
